import Mathlib

/-!
# Detection radar (`src/detection_radar/main.js`)

A shallow embedding of the polling-and-draw script and the properties its
specification states about it.

Modelling conventions.

* JavaScript numbers are binary64 values, embedded as the rationals they denote
  (`ℚ`); the values produced by `parseInt` are integers (`ℤ`).  Every numeric
  literal and every arithmetic operation rounds its exact result to the nearest
  binary64 value, ties to even (`fl`).  A field of a detection, and a value
  read from a slider, is read by the arithmetic of the script as the nearest
  binary64 value, so it may be given as written in the JSON text; `fl` leaves a
  binary64 value unchanged (`fl_idem`).  The comparison of line 62 is made on
  the two numbers as given.  Results of magnitude `2 ^ 1024` or more (the
  infinities) and `NaN` are outside the embedding.  Every division the script
  performs on a path that the embedding follows has a divisor that is a nonzero
  literal or a box height of at least `0.01`.
* `Math.PI`, `Math.sin`, `Math.cos` and `Math.tan` belong to the platform, not to
  the script; they are parameters (`JSMath`).
* The 2D context `ctx` is embedded as the trace of the operations performed on
  it (`DrawOp`), in program order.
* The `async` function `fetchDetections` is split at its suspension points: the
  part that runs synchronously up to `await fetch(...)`
  (`fetchDetections_request`) and the continuation that resumes once both
  awaits have settled (`fetchDetections_resume`).  Nothing between the two
  awaits reads or writes program state.
-/

namespace DetectionRadar

/-! ## Platform values -/

/-- Platform mathematics used by the script: `Math.PI`, `Math.sin`, `Math.cos`,
`Math.tan`. -/
structure JSMath where
  PI : ℚ
  sin : ℚ → ℚ
  cos : ℚ → ℚ
  tan : ℚ → ℚ

/-- The JavaScript values that a property read on `CLASS_COLORS` can produce:
`undefined`, a string, or a built-in object or function inherited from
`Object.prototype` (named by the property that yields it). -/
inductive JSValue where
  | undefined
  | str (s : String)
  | builtin (name : String)
  deriving DecidableEq, Repr

/-- JavaScript truthiness (`ToBoolean`) of the values above. -/
def JSValue.truthy : JSValue → Bool
  | .undefined => false
  | .str s => s != ""
  | .builtin _ => true

/-- The operator `a || b` of JavaScript. -/
def JSValue.or (a b : JSValue) : JSValue :=
  if a.truthy then a else b

/-- Operations performed on the 2D context `ctx`, method calls and property
assignments alike. -/
inductive DrawOp where
  | clearRect (x y w h : ℚ)
  | beginPath
  | arc (x y r startAngle endAngle : ℚ)
  | moveTo (x y : ℚ)
  | lineTo (x y : ℚ)
  | fill
  | stroke
  | fillRect (x y w h : ℚ)
  | fillText (text : String) (x y : ℚ)
  | setFillStyle (v : JSValue)
  | setStrokeStyle (s : String)
  | setFont (s : String)
  | setTextAlign (s : String)
  deriving DecidableEq, Repr

/-! ## Data model -/

/-- The object `det.bbox_normalized`. -/
structure BBox where
  xmin : ℚ
  ymin : ℚ
  xmax : ℚ
  ymax : ℚ
  deriving DecidableEq, Repr

/-- One well-formed element of the array served by `/api/detections`. -/
structure Detection where
  label : String
  confidence : ℚ
  bbox_normalized : BBox
  deriving DecidableEq, Repr

/-- The three `let` globals that the sliders update. -/
structure ViewConfig where
  HORIZONTAL_FOV : ℤ
  DISTANCE_SCALE : ℤ
  MIN_CONFIDENCE : ℚ
  deriving DecidableEq, Repr

/-- Constants fixed when the script starts: the platform mathematics and
`CANVAS_WIDTH`, `CANVAS_HEIGHT` (read from `canvas.width`, `canvas.height`). -/
structure Env where
  math : JSMath
  CANVAS_WIDTH : ℕ
  CANVAS_HEIGHT : ℕ

/-- The value that `drawMinimap` receives, by the way the function treats it.

* `falsy`: `null`, `false`, `0`, `""` (the test `!detections` succeeds), or an
  object whose `length` is `0`; the function returns at line 58.
* `array ds`: an array of well-formed detections.
* `nonArray`: any other parsed JSON value (an object, `true`, a nonzero number,
  a non-empty string); it has no `forEach`, so line 60 throws a `TypeError`. -/
inductive Payload where
  | falsy
  | array (ds : List Detection)
  | nonArray
  deriving DecidableEq, Repr

/-- Exceptions raised inside the script. -/
inductive JSError where
  | typeError
  | fetchRejected
  | jsonRejected
  deriving DecidableEq, Repr

/-! ## Colour table -/

/-- The own properties of the object literal `CLASS_COLORS`, in insertion
order. -/
def CLASS_COLORS : List (String × String) :=
  [("person", "#e06c75"), ("car", "#61afef"), ("bicycle", "#56b6c2"),
   ("motorcycle", "#56b6c2"), ("bus", "#c678dd"), ("truck", "#c678dd"),
   ("traffic light", "#e5c07b"), ("stop sign", "#e5c07b"), ("dog", "#98c379"),
   ("cat", "#98c379"), ("default", "#abb2bf")]

/-- The property names that every object literal inherits from
`Object.prototype`; each of them reads as a function or an object. -/
def OBJECT_PROTOTYPE_KEYS : List String :=
  ["constructor", "__defineGetter__", "__defineSetter__", "hasOwnProperty",
   "__lookupGetter__", "__lookupSetter__", "isPrototypeOf",
   "propertyIsEnumerable", "toString", "valueOf", "__proto__", "toLocaleString"]

/-- The property read `CLASS_COLORS[key]`: the own property when there is one,
otherwise the property inherited from `Object.prototype`, otherwise
`undefined`. -/
def CLASS_COLORS_get (key : String) : JSValue :=
  match CLASS_COLORS.lookup key with
  | some c => .str c
  | none => if key ∈ OBJECT_PROTOTYPE_KEYS then .builtin key else .undefined

/-- Line 78: `CLASS_COLORS[det.label] || CLASS_COLORS.default`. -/
def color (det : Detection) : JSValue :=
  (CLASS_COLORS_get det.label).or (CLASS_COLORS_get "default")

/-! ## Binary64 arithmetic -/

/-- The integer nearest to `t`, the even one of the two at a tie. -/
def roundHalfEven (t : ℚ) : ℤ :=
  if t - ⌊t⌋ < 1 / 2 then ⌊t⌋
  else if 1 / 2 < t - ⌊t⌋ then ⌊t⌋ + 1
  else if ⌊t⌋ % 2 = 0 then ⌊t⌋ else ⌊t⌋ + 1

/-- The exponent of the spacing of binary64 values around the magnitude `a`:
53 significant bits, and `-1074` throughout the subnormal range. -/
def quantumExponent (a : ℚ) : ℤ :=
  max (Int.log 2 a - 52) (-1074)

/-- The binary64 value nearest to the magnitude `a`, for `0 ≤ a`. -/
def roundMagnitude (a : ℚ) : ℚ :=
  (roundHalfEven (a / 2 ^ quantumExponent a) : ℚ) * 2 ^ quantumExponent a

/-- The binary64 value nearest to `x`, ties to even: the value of a numeric
literal, of a number parsed by `JSON.parse`, `parseFloat` or `parseInt`, and of
the exact result of an arithmetic operation. -/
def fl (x : ℚ) : ℚ :=
  if x < 0 then -roundMagnitude (-x) else roundMagnitude x

/-- The operator `x + y` of JavaScript on numbers. -/
def jsAdd (x y : ℚ) : ℚ := fl (x + y)

/-- The operator `x - y` of JavaScript on numbers. -/
def jsSub (x y : ℚ) : ℚ := fl (x - y)

/-- The operator `x * y` of JavaScript on numbers. -/
def jsMul (x y : ℚ) : ℚ := fl (x * y)

/-- The operator `x / y` of JavaScript on numbers, for a divisor other than
zero. -/
def jsDiv (x y : ℚ) : ℚ := fl (x / y)

/-- The decimal numbers `s * 10 ^ (n - k)` of `k` digits that read back as the
binary64 value `x`, each with its `n`. -/
def digitCandidates (x : ℚ) (k n : ℕ) : List (ℕ × ℕ) :=
  (([⌊x / 10 ^ (n - k)⌋₊, ⌊x / 10 ^ (n - k)⌋₊ + 1] : List ℕ).filter (fun (s : ℕ) =>
    decide (10 ^ (k - 1) ≤ s) && decide (s < 10 ^ k) &&
      decide (fl ((s : ℚ) * 10 ^ (n - k)) = x))).map (fun (s : ℕ) => (s, n))

/-- Of two candidates the one nearer to `x`, the even one at a tie. -/
def closerCandidate (x : ℚ) (k : ℕ) (c1 c2 : ℕ × ℕ) : ℕ × ℕ :=
  if |(c1.1 : ℚ) * 10 ^ (c1.2 - k) - x| < |(c2.1 : ℚ) * 10 ^ (c2.2 - k) - x| then c1
  else if |(c2.1 : ℚ) * 10 ^ (c2.2 - k) - x| < |(c1.1 : ℚ) * 10 ^ (c1.2 - k) - x| then c2
  else if c1.1 % 2 = 0 then c1 else c2

/-- The shortest digit string of `Number::toString` for a binary64 value
`x ≥ 10 ^ 21`: the number `k` of digits, the digits `s` and the `n` with
`10 ^ (n - 1) ≤ s * 10 ^ (n - k) < 10 ^ n`. -/
def shortestDigits (x : ℚ) : Option (ℕ × ℕ × ℕ) :=
  (List.range 17).findSome? (fun i =>
    match digitCandidates x (i + 1) (Nat.log 10 ⌊x⌋₊ + 1) ++
        digitCandidates x (i + 1) (Nat.log 10 ⌊x⌋₊ + 2) with
    | [] => none
    | c :: cs => some (i + 1, cs.foldl (closerCandidate x (i + 1)) c))

/-- The string of `Number::toString` for a binary64 value `x ≥ 10 ^ 21`, which is
in exponent notation. -/
def exponentString (x : ℚ) : String :=
  match shortestDigits x with
  | none => ""
  | some (k, s, n) =>
    if k = 1 then toString s ++ "e+" ++ toString (n - 1)
    else (toString s).take 1 ++ "." ++ (toString s).drop 1 ++ "e+" ++ toString (n - 1)

/-- The method call `x.toFixed(0)` on a binary64 value: the sign first; below
`10 ^ 21` the nearest integer, a tie going to the larger one; from `10 ^ 21` on
the string of `Number::toString`. -/
def toFixed0 (x : ℚ) : String :=
  if x < 0 then
    "-" ++ (if 10 ^ 21 ≤ -x then exponentString (-x) else toString (⌊-x + 1 / 2⌋).toNat)
  else if 10 ^ 21 ≤ x then exponentString x
  else toString (⌊x + 1 / 2⌋).toNat

/-! ## Drawing -/

/-- Lines 32 to 39. -/
def drawMinimapBackground (env : Env) (cfg : ViewConfig) : List DrawOp :=
  let observerX : ℚ := jsDiv (env.CANVAS_WIDTH : ℚ) 2
  let observerY : ℚ := (env.CANVAS_HEIGHT : ℚ)
  let maxDist : ℚ := jsMul (env.CANVAS_HEIGHT : ℚ) (fl (95 / 100))
  let fovRad : ℚ := jsMul (fl (cfg.HORIZONTAL_FOV : ℚ)) (jsDiv env.math.PI 180)
  [.beginPath, .arc observerX observerY 10 0 (jsMul 2 env.math.PI),
   .setFillStyle (.str "#61afef"), .fill] ++
  [.beginPath,
   .moveTo (jsSub observerX (jsMul maxDist (env.math.tan (jsDiv fovRad 2))))
     (jsSub observerY maxDist),
   .lineTo observerX observerY,
   .lineTo (jsAdd observerX (jsMul maxDist (env.math.tan (jsDiv fovRad 2))))
     (jsSub observerY maxDist),
   .setStrokeStyle "rgba(255, 255, 255, 0.2)", .stroke] ++
  ([1 / 4, 1 / 2, 3 / 4] : List ℚ).flatMap (fun r =>
    [.beginPath,
     .arc observerX observerY (jsMul r (env.CANVAS_HEIGHT : ℚ)) 0 (jsMul 2 env.math.PI),
     .setStrokeStyle "rgba(255, 255, 255, 0.1)", .stroke])

/-- The loop of lines 45 to 50 over the remaining entries, at the current
`yOffset` (`xOffset` stays 20). -/
def drawLegendEntries : List (String × String) → ℚ → List DrawOp
  | [], _ => []
  | (className, c) :: rest, yOffset =>
    if className = "default" then drawLegendEntries rest yOffset
    else
      [.setFillStyle (.str c), .fillRect 20 (jsSub yOffset 10) 10 10,
       .setFillStyle (.str "#abb2bf"),
       .fillText className.capitalize (jsAdd 20 20) yOffset] ++
      drawLegendEntries rest (jsAdd yOffset 22)

/-- Lines 41 to 51. -/
def drawLegend : List DrawOp :=
  [.setFont "bold 16px sans-serif", .setFillStyle (.str "#abb2bf"),
   .setTextAlign "left", .fillText "Legend" 20 30, .setFont "14px sans-serif"] ++
  drawLegendEntries CLASS_COLORS (jsAdd 30 25)

/-- Line 67. -/
def bbox_center_x (det : Detection) : ℚ :=
  jsDiv (jsAdd (fl det.bbox_normalized.xmin) (fl det.bbox_normalized.xmax)) 2

/-- Line 68. -/
def bbox_height (det : Detection) : ℚ :=
  jsSub (fl det.bbox_normalized.ymax) (fl det.bbox_normalized.ymin)

/-- Line 71. -/
def angleDegrees (cfg : ViewConfig) (det : Detection) : ℚ :=
  jsMul (jsSub (bbox_center_x det) (1 / 2)) (fl (cfg.HORIZONTAL_FOV : ℚ))

/-- Line 72. -/
def distance (cfg : ViewConfig) (det : Detection) : ℚ :=
  jsDiv (fl (cfg.DISTANCE_SCALE : ℚ)) (bbox_height det)

/-- Line 74. -/
def angleRadians (env : Env) (cfg : ViewConfig) (det : Detection) : ℚ :=
  jsMul (angleDegrees cfg det) (jsDiv env.math.PI 180)

/-- Line 76. -/
def mapX (env : Env) (cfg : ViewConfig) (det : Detection) : ℚ :=
  jsAdd (jsDiv (env.CANVAS_WIDTH : ℚ) 2)
    (jsMul (distance cfg det) (env.math.sin (angleRadians env cfg det)))

/-- Line 77. -/
def mapY (env : Env) (cfg : ViewConfig) (det : Detection) : ℚ :=
  jsSub (env.CANVAS_HEIGHT : ℚ)
    (jsMul (distance cfg det) (env.math.cos (angleRadians env cfg det)))

/-- Line 81: the text of the annotation. -/
def label (det : Detection) : String :=
  det.label ++ " (" ++ toFixed0 (jsMul (fl det.confidence) 100) ++ "%)"

/-- Lines 80 to 82: the operations that draw one marker and its annotation. -/
def drawMarker (env : Env) (cfg : ViewConfig) (det : Detection) : List DrawOp :=
  [.beginPath, .arc (mapX env cfg det) (mapY env cfg det) 6 0 (jsMul 2 env.math.PI),
   .setFillStyle (color det), .fill,
   .setFillStyle (color det), .setFont "14px sans-serif", .setTextAlign "center",
   .fillText (label det) (mapX env cfg det) (jsSub (mapY env cfg det) 10)]

/-- The callback of `detections.forEach` (lines 60 to 83) applied to one
detection: the operations it performs on `ctx`. -/
def drawDetection (env : Env) (cfg : ViewConfig) (det : Detection) : List DrawOp :=
  if det.confidence < cfg.MIN_CONFIDENCE then []
  else if bbox_height det < fl (1 / 100) then []
  else drawMarker env cfg det

/-- Lines 54 to 56, also the idle redraw of lines 114 and 115: clear, background,
legend. -/
def drawIdle (env : Env) (cfg : ViewConfig) : List DrawOp :=
  [.clearRect 0 0 (env.CANVAS_WIDTH : ℚ) (env.CANVAS_HEIGHT : ℚ)] ++
  drawMinimapBackground env cfg ++ drawLegend

/-- Lines 53 to 84: the operations performed on `ctx`, and the exception thrown,
if any. -/
def drawMinimap (env : Env) (cfg : ViewConfig) : Payload → List DrawOp × Option JSError
  | .falsy => (drawIdle env cfg, none)
  | .array ds =>
    if ds.length = 0 then (drawIdle env cfg, none)
    else (drawIdle env cfg ++ ds.flatMap (drawDetection env cfg), none)
  | .nonArray => (drawIdle env cfg, some .typeError)

/-! ## Program state and polling -/

/-- Mutable program state together with the parts of the page the script
writes to.

* `timers`: the identifiers of the interval timers that were set by
  `setInterval` and not yet cleared.
* `nextTimerID`: the identifier that the next `setInterval` returns.
* `inFlight`: the number of calls of `fetchDetections` suspended at an `await`.
* `ops`: the operations performed on `ctx` so far.
* `consoleErrors`: the number of calls of `console.error`. -/
structure World where
  cfg : ViewConfig
  isPollingActive : Bool
  pollingIntervalID : Option ℕ
  timers : List ℕ
  nextTimerID : ℕ
  inFlight : ℕ
  ops : List DrawOp
  toggleButtonText : String
  toggleButtonActive : Bool
  statusText : String
  statusColor : String
  consoleErrors : ℕ
  deriving DecidableEq, Repr

/-- How one request `fetch("/api/detections")` followed by `response.json()`
settles.

* `networkError`: the promise of `fetch` rejects.
* `response status none`: a response arrived and its body is not JSON, so the
  promise of `response.json()` rejects.
* `response status (some p)`: a response arrived and its body parses to `p`. -/
inductive FetchResult where
  | networkError
  | response (status : ℕ) (body : Option Payload)
  deriving DecidableEq, Repr

/-- The call `setInterval(fetchDetections, POLLING_INTERVAL_MS)`: a new timer is
registered and its identifier returned. -/
def setInterval (w : World) : ℕ × World :=
  (w.nextTimerID, { w with timers := w.nextTimerID :: w.timers, nextTimerID := w.nextTimerID + 1 })

/-- The call `clearInterval(id)`; `null` names no timer. -/
def clearInterval (id : Option ℕ) (w : World) : World :=
  match id with
  | none => w
  | some i => { w with timers := w.timers.filter (fun t => t != i) }

/-- Lines 109 to 118. -/
def stopPolling (env : Env) (w : World) : World :=
  if w.isPollingActive = false then w
  else
    let w := { w with isPollingActive := false }
    let w := clearInterval w.pollingIntervalID w
    let w := { w with pollingIntervalID := none }
    let w := { w with ops := w.ops ++ drawIdle env w.cfg }
    let w := { w with toggleButtonText := "Start Polling", toggleButtonActive := false }
    { w with statusText := "Status: OFF", statusColor := "#e06c75" }

/-- Lines 88 and 89 up to the first suspension: the request is issued and the
function returns its promise. -/
def fetchDetections_request (w : World) : World :=
  { w with inFlight := w.inFlight + 1 }

/-- The `try` block of lines 89 to 93 once both awaits have settled: the state
after it and the exception it raised, if any. -/
def fetchDetections_try (env : Env) (w : World) : FetchResult → World × Option JSError
  | .networkError => (w, some .fetchRejected)
  | .response _ none => (w, some .jsonRejected)
  | .response _ (some detections) =>
    if w.isPollingActive then
      let r := drawMinimap env w.cfg detections
      ({ w with ops := w.ops ++ r.1 }, r.2)
    else (w, none)

/-- Lines 94 to 97: the `catch` block. -/
def fetchDetections_catch (env : Env) (w : World) : World :=
  stopPolling env { w with consoleErrors := w.consoleErrors + 1 }

/-- The continuation of `fetchDetections` (lines 89 to 97): the state after it
and the exception with which the returned promise rejects, if any. -/
def fetchDetections_resume (env : Env) (w : World) (r : FetchResult) : World × Option JSError :=
  let w := { w with inFlight := w.inFlight - 1 }
  match fetchDetections_try env w r with
  | (w, none) => (w, none)
  | (w, some _) => (fetchDetections_catch env w, none)

/-- Lines 100 to 107. -/
def startPolling (w : World) : World :=
  if w.isPollingActive then w
  else
    let w := { w with isPollingActive := true }
    let (id, w) := setInterval w
    let w := { w with pollingIntervalID := some id }
    let w := fetchDetections_request w
    let w := { w with toggleButtonText := "Stop Polling", toggleButtonActive := true }
    { w with statusText := "Status: ON", statusColor := "#98c379" }

/-- What the event loop can deliver to the script.

* `click`: the listener of line 121.
* `start`, `stop`: a direct call of `startPolling()` or `stopPolling()`.
* `tick id`: the interval timer `id` fires; it calls `fetchDetections` when it
  is still set.
* `settle r`: a suspended `fetchDetections` resumes with `r`, when there is
  one.
* `fovInput`, `distanceInput`, `confidenceInput`: the slider listeners of lines
  123 to 136, carrying the parsed value (the textual readouts are not part of
  the state). -/
inductive Event where
  | click
  | start
  | stop
  | tick (id : ℕ)
  | settle (r : FetchResult)
  | fovInput (v : ℤ)
  | distanceInput (v : ℤ)
  | confidenceInput (v : ℚ)
  deriving DecidableEq, Repr

/-- One turn of the event loop. -/
def step (env : Env) (w : World) : Event → World
  | .click => if w.isPollingActive then stopPolling env w else startPolling w
  | .start => startPolling w
  | .stop => stopPolling env w
  | .tick id => if id ∈ w.timers then fetchDetections_request w else w
  | .settle r => if w.inFlight = 0 then w else (fetchDetections_resume env w r).1
  | .fovInput v => { w with cfg := { w.cfg with HORIZONTAL_FOV := v } }
  | .distanceInput v => { w with cfg := { w.cfg with DISTANCE_SCALE := v } }
  | .confidenceInput v => { w with cfg := { w.cfg with MIN_CONFIDENCE := v } }

/-- The events of a list delivered in order. -/
def run (env : Env) (w : World) (es : List Event) : World :=
  es.foldl (step env) w

/-- The state once the script has been evaluated (lines 23 to 29, 139 and 140):
polling is inactive, no timer is set, and the idle background and legend are
drawn.  The configuration read from the sliders and the texts that the page
shows initially are arguments. -/
def initialWorld (env : Env) (cfg : ViewConfig) (buttonText statusText statusColor : String) :
    World :=
  { cfg := cfg
    isPollingActive := false
    pollingIntervalID := none
    timers := []
    nextTimerID := 1
    inFlight := 0
    ops := drawMinimapBackground env cfg ++ drawLegend
    toggleButtonText := buttonText
    toggleButtonActive := false
    statusText := statusText
    statusColor := statusColor
    consoleErrors := 0 }

/-- The number of polling timers that are set and not yet cleared. -/
def scheduledTimers (w : World) : ℕ :=
  w.timers.length

/-! ## Concrete instances -/

/-- A concrete instance of the platform mathematics: `Math.PI` is its binary64
value; the three functions are low-order rational approximations, exact at
`0`. -/
def sampleMath : JSMath :=
  { PI := 884279719003555 / 281474976710656
    sin := fun x => x - x ^ 3 / 6
    cos := fun x => 1 - x ^ 2 / 2
    tan := fun x => x + x ^ 3 / 3 }

/-- A canvas of 800 by 600 pixels. -/
def sampleEnv : Env :=
  { math := sampleMath, CANVAS_WIDTH := 800, CANVAS_HEIGHT := 600 }

/-- The configuration of the scenarios: field of view 90, distance scale 100,
minimum confidence 0.5. -/
def scenarioConfig : ViewConfig :=
  { HORIZONTAL_FOV := 90, DISTANCE_SCALE := 100, MIN_CONFIDENCE := 1 / 2 }

/-- The detection of the scenarios: a car with the box 0.4, 0.3, 0.6, 0.5 at
the given confidence. -/
def carDetection (confidence : ℚ) : Detection :=
  { label := "car", confidence := confidence,
    bbox_normalized := { xmin := 2 / 5, ymin := 3 / 10, xmax := 3 / 5, ymax := 1 / 2 } }

/-- A detection with the given label, confidence 0.9 and a box spanning the given
`ymin` and `ymax` around the image centre. -/
def boxDetection (name : String) (ymin ymax : ℚ) : Detection :=
  { label := name, confidence := 9 / 10,
    bbox_normalized := { xmin := 2 / 5, ymin := ymin, xmax := 3 / 5, ymax := ymax } }

/-! ## Predicates of the specification -/

/-- The two conditions of the specification under which a detection is drawn:
its confidence is at least `minConfidence` and its box height `ymax - ymin`,
the value that line 68 computes, is at least the literal `0.01`. -/
def passesFilters (cfg : ViewConfig) (d : Detection) : Bool :=
  decide (cfg.MIN_CONFIDENCE ≤ d.confidence) &&
  decide (fl (1 / 100) ≤ bbox_height d)

/-- The operation is a call of `ctx.arc`. -/
def DrawOp.isArc : DrawOp → Bool
  | .arc _ _ _ _ _ => true
  | _ => false

/-- The operation is a call of `ctx.fillText`. -/
def DrawOp.isFillText : DrawOp → Bool
  | .fillText _ _ _ => true
  | _ => false

/-! ## Polling invariant, scenario state and known labels -/

/-- The invariant of the polling state: while active, `pollingIntervalID` names
the one timer that is set; while inactive, it is `null` and no timer is set. -/
def PollingInv (w : World) : Prop :=
  (w.isPollingActive = true ∧ ∃ id, w.pollingIntervalID = some id ∧ w.timers = [id]) ∨
  (w.isPollingActive = false ∧ w.pollingIntervalID = none ∧ w.timers = [])

/-- The state of the scenarios once `startPolling` has run from the initial
state on the canvas of 800 by 600: polling is active and one request is in
flight. -/
def activeWorld : World :=
  startPolling (initialWorld sampleEnv scenarioConfig "Start Polling" "Status: OFF" "#e06c75")

/-- The ten known labels: the own keys of `CLASS_COLORS` other than
`default`. -/
def KNOWN_LABELS : List String :=
  (CLASS_COLORS.map Prod.fst).filter (fun k => k != "default")

/-! ## Rounding -/

theorem roundHalfEven_floor_le (t : ℚ) : ⌊t⌋ ≤ roundHalfEven t := by
  unfold roundHalfEven
  split_ifs <;> omega

theorem roundHalfEven_le_floor_succ (t : ℚ) : roundHalfEven t ≤ ⌊t⌋ + 1 := by
  unfold roundHalfEven
  split_ifs <;> omega

theorem roundHalfEven_intCast (n : ℤ) : roundHalfEven (n : ℚ) = n := by
  unfold roundHalfEven
  simp

theorem roundHalfEven_mono {t u : ℚ} (h : t ≤ u) : roundHalfEven t ≤ roundHalfEven u := by
  rcases lt_or_eq_of_le (Int.floor_le_floor h) with hlt | heq
  · calc roundHalfEven t ≤ ⌊t⌋ + 1 := roundHalfEven_le_floor_succ t
      _ ≤ ⌊u⌋ := hlt
      _ ≤ roundHalfEven u := roundHalfEven_floor_le u
  · unfold roundHalfEven
    rw [heq]
    have hfr : t - (⌊u⌋ : ℚ) ≤ u - (⌊u⌋ : ℚ) := by linarith
    split_ifs <;> first | omega | (exfalso; linarith)

theorem roundHalfEven_eq_of_near (t : ℚ) (n : ℤ) (h1 : (n : ℚ) - 1 / 2 < t)
    (h2 : t < (n : ℚ) + 1 / 2) : roundHalfEven t = n := by
  rcases le_or_lt (n : ℚ) t with hle | hlt
  · have hf : ⌊t⌋ = n := by
      rw [Int.floor_eq_iff]
      constructor
      · exact hle
      · linarith
    unfold roundHalfEven
    rw [hf, if_pos (by linarith)]
  · have hf : ⌊t⌋ = n - 1 := by
      rw [Int.floor_eq_iff]
      push_cast
      constructor <;> linarith
    unfold roundHalfEven
    rw [hf]
    push_cast
    rw [if_neg (by linarith), if_pos (by linarith)]
    ring

theorem roundHalfEven_nonneg {t : ℚ} (h : 0 ≤ t) : 0 ≤ roundHalfEven t := by
  have := roundHalfEven_mono h
  rwa [show (0 : ℚ) = ((0 : ℤ) : ℚ) by simp, roundHalfEven_intCast] at this

theorem two_zpow_pos (e : ℤ) : (0 : ℚ) < 2 ^ e := zpow_pos (by norm_num) e

theorem roundHalfEven_two_zpow (m : ℤ) (hm : 0 ≤ m) :
    ((roundHalfEven ((2 : ℚ) ^ m) : ℤ) : ℚ) = 2 ^ m := by
  obtain ⟨k, rfl⟩ := Int.eq_ofNat_of_zero_le hm
  have h : (2 : ℚ) ^ ((k : ℕ) : ℤ) = (((2 : ℤ) ^ k : ℤ) : ℚ) := by
    rw [zpow_natCast]; push_cast; rfl
  rw [h, roundHalfEven_intCast]

theorem quantumExponent_ge (a : ℚ) : -1074 ≤ quantumExponent a := le_max_right _ _

theorem log_lt_of_lt {a : ℚ} (ha : 0 < a) {m : ℤ} (h : a < 2 ^ m) : Int.log 2 a < m := by
  have h2 : a < ((2 : ℕ) : ℚ) ^ m := by simpa using h
  exact (Int.lt_zpow_iff_log_lt (by norm_num) ha).mp h2

theorem le_log_of_le {a : ℚ} (ha : 0 < a) {m : ℤ} (h : 2 ^ m ≤ a) : m ≤ Int.log 2 a := by
  have h2 : ((2 : ℕ) : ℚ) ^ m ≤ a := by simpa using h
  exact (Int.zpow_le_iff_le_log (by norm_num) ha).mp h2

theorem zpow_log_le {a : ℚ} (ha : 0 < a) : (2 : ℚ) ^ Int.log 2 a ≤ a := by
  have h := @Int.zpow_log_le_self ℚ _ _ 2 a (by norm_num) ha
  simpa using h

theorem lt_zpow_log_succ (a : ℚ) : a < (2 : ℚ) ^ (Int.log 2 a + 1) := by
  have h := @Int.lt_zpow_succ_log_self ℚ _ _ 2 (by norm_num) a
  simpa using h

theorem roundMagnitude_zero : roundMagnitude 0 = 0 := by
  unfold roundMagnitude
  rw [zero_div, show (0 : ℚ) = ((0 : ℤ) : ℚ) by simp, roundHalfEven_intCast]
  simp

theorem roundMagnitude_nonneg {a : ℚ} (ha : 0 ≤ a) : 0 ≤ roundMagnitude a := by
  unfold roundMagnitude
  apply mul_nonneg
  · exact_mod_cast roundHalfEven_nonneg (div_nonneg ha (le_of_lt (two_zpow_pos _)))
  · exact le_of_lt (two_zpow_pos _)



theorem roundMagnitude_of_quantum {a : ℚ} {e : ℤ} (h : quantumExponent a = e) :
    roundMagnitude a = (roundHalfEven (a / 2 ^ e) : ℚ) * 2 ^ e := by
  unfold roundMagnitude
  rw [h]

theorem roundHalfEven_le_two_zpow {t : ℚ} {m : ℤ} (hm : 0 ≤ m) (h : t ≤ 2 ^ m) :
    ((roundHalfEven t : ℤ) : ℚ) ≤ 2 ^ m := by
  rw [← roundHalfEven_two_zpow m hm]
  exact_mod_cast roundHalfEven_mono h

theorem two_zpow_le_roundHalfEven {t : ℚ} {m : ℤ} (hm : 0 ≤ m) (h : 2 ^ m ≤ t) :
    (2 : ℚ) ^ m ≤ ((roundHalfEven t : ℤ) : ℚ) := by
  rw [← roundHalfEven_two_zpow m hm]
  exact_mod_cast roundHalfEven_mono h

theorem roundMagnitude_mono {a b : ℚ} (ha : 0 ≤ a) (hab : a ≤ b) :
    roundMagnitude a ≤ roundMagnitude b := by
  rcases eq_or_lt_of_le ha with h0 | hpos
  · rw [← h0, roundMagnitude_zero]
    exact roundMagnitude_nonneg (le_trans ha hab)
  have hbpos : 0 < b := lt_of_lt_of_le hpos hab
  have hlog : Int.log 2 a ≤ Int.log 2 b := Int.log_mono_right hpos hab
  have hq : quantumExponent a ≤ quantumExponent b := by
    unfold quantumExponent
    exact max_le_max (by omega) le_rfl
  rcases eq_or_lt_of_le hq with heq | hlt
  · rw [roundMagnitude_of_quantum rfl, roundMagnitude_of_quantum heq.symm]
    apply mul_le_mul_of_nonneg_right _ (le_of_lt (two_zpow_pos _))
    exact_mod_cast roundHalfEven_mono (div_le_div_of_nonneg_right hab (le_of_lt (two_zpow_pos _)))
  · have hqa : Int.log 2 a - 52 ≤ quantumExponent a := le_max_left _ _
    have hqa2 : -1074 ≤ quantumExponent a := le_max_right _ _
    have hqb : quantumExponent b = Int.log 2 b - 52 := by
      unfold quantumExponent at hlt hqa2 ⊢
      rcases max_cases (Int.log 2 b - 52) (-1074) with ⟨h1, _⟩ | ⟨h1, _⟩
      · exact h1
      · rw [h1] at hlt; omega
    have hmid1 : roundMagnitude a ≤ 2 ^ Int.log 2 b := by
      have hm : 0 ≤ Int.log 2 b - quantumExponent a := by omega
      have ha2 : a ≤ 2 ^ Int.log 2 b := by
        have h1 : a < 2 ^ (Int.log 2 a + 1) := lt_zpow_log_succ a
        have h2 : (2 : ℚ) ^ (Int.log 2 a + 1) ≤ 2 ^ Int.log 2 b :=
          zpow_le_zpow_right₀ (by norm_num) (by omega)
        linarith
      have h3 : a / 2 ^ quantumExponent a ≤ 2 ^ (Int.log 2 b - quantumExponent a) := by
        rw [zpow_sub₀ (by norm_num : (2 : ℚ) ≠ 0)]
        exact div_le_div_of_nonneg_right ha2 (le_of_lt (two_zpow_pos _))
      have h4 := roundHalfEven_le_two_zpow hm h3
      calc roundMagnitude a
          = (roundHalfEven (a / 2 ^ quantumExponent a) : ℚ) * 2 ^ quantumExponent a := rfl
        _ ≤ 2 ^ (Int.log 2 b - quantumExponent a) * 2 ^ quantumExponent a :=
            mul_le_mul_of_nonneg_right h4 (le_of_lt (two_zpow_pos _))
        _ = 2 ^ Int.log 2 b := by
            rw [← zpow_add₀ (by norm_num : (2 : ℚ) ≠ 0)]
            congr 1
            ring
    have hmid2 : (2 : ℚ) ^ Int.log 2 b ≤ roundMagnitude b := by
      have h3 : (2 : ℚ) ^ (52 : ℤ) ≤ b / 2 ^ quantumExponent b := by
        rw [hqb, le_div_iff₀ (two_zpow_pos _), ← zpow_add₀ (by norm_num : (2 : ℚ) ≠ 0)]
        have : (52 : ℤ) + (Int.log 2 b - 52) = Int.log 2 b := by ring
        rw [this]
        exact zpow_log_le hbpos
      have h4 := two_zpow_le_roundHalfEven (by norm_num) h3
      calc (2 : ℚ) ^ Int.log 2 b = 2 ^ (52 : ℤ) * 2 ^ quantumExponent b := by
            rw [← zpow_add₀ (by norm_num : (2 : ℚ) ≠ 0), hqb]
            congr 1
            ring
        _ ≤ (roundHalfEven (b / 2 ^ quantumExponent b) : ℚ) * 2 ^ quantumExponent b :=
            mul_le_mul_of_nonneg_right h4 (le_of_lt (two_zpow_pos _))
        _ = roundMagnitude b := rfl
    exact le_trans hmid1 hmid2

theorem roundMagnitude_representable (n : ℕ) (k : ℤ) (hn : n < 2 ^ 53) (hk : -1074 ≤ k) :
    roundMagnitude ((n : ℚ) * 2 ^ k) = (n : ℚ) * 2 ^ k := by
  rcases Nat.eq_zero_or_pos n with h0 | hpos
  · subst h0
    simp [roundMagnitude_zero]
  have hv : (0 : ℚ) < (n : ℚ) * 2 ^ k := mul_pos (by exact_mod_cast hpos) (two_zpow_pos k)
  have hlt : (n : ℚ) * 2 ^ k < 2 ^ (k + 53) := by
    rw [zpow_add₀ (by norm_num : (2 : ℚ) ≠ 0), mul_comm ((2 : ℚ) ^ k)]
    apply mul_lt_mul_of_pos_right _ (two_zpow_pos k)
    calc (n : ℚ) < (2 : ℚ) ^ (53 : ℕ) := by exact_mod_cast hn
      _ = 2 ^ (53 : ℤ) := by norm_num
  have hlog : Int.log 2 ((n : ℚ) * 2 ^ k) < k + 53 := log_lt_of_lt hv hlt
  have hq : quantumExponent ((n : ℚ) * 2 ^ k) ≤ k := by
    unfold quantumExponent
    exact max_le (by omega) hk
  obtain ⟨j, hj⟩ := Int.eq_ofNat_of_zero_le (sub_nonneg.mpr hq)
  have hk2 : k = (j : ℤ) + quantumExponent ((n : ℚ) * 2 ^ k) := by omega
  have hdiv : (n : ℚ) * 2 ^ k / 2 ^ quantumExponent ((n : ℚ) * 2 ^ k) =
      (((n * 2 ^ j : ℕ) : ℤ) : ℚ) := by
    rw [div_eq_iff (ne_of_gt (two_zpow_pos _))]
    nth_rewrite 1 [hk2]
    rw [zpow_add₀ (by norm_num : (2 : ℚ) ≠ 0), zpow_natCast]
    push_cast
    ring
  unfold roundMagnitude
  rw [hdiv, roundHalfEven_intCast, ← hdiv]
  exact div_mul_cancel₀ _ (ne_of_gt (two_zpow_pos _))



theorem roundMagnitude_idem {a : ℚ} (ha : 0 ≤ a) :
    roundMagnitude (roundMagnitude a) = roundMagnitude a := by
  have hq : Int.log 2 a - 52 ≤ quantumExponent a := le_max_left _ _
  have hk : -1074 ≤ quantumExponent a := le_max_right _ _
  have hdiv : a / 2 ^ quantumExponent a ≤ 2 ^ (53 : ℤ) := by
    rw [div_le_iff₀ (two_zpow_pos _), ← zpow_add₀ (by norm_num : (2 : ℚ) ≠ 0)]
    have h1 : a < 2 ^ (Int.log 2 a + 1) := lt_zpow_log_succ a
    have h2 : (2 : ℚ) ^ (Int.log 2 a + 1) ≤ 2 ^ (53 + quantumExponent a) :=
      zpow_le_zpow_right₀ (by norm_num) (by omega)
    linarith
  have hle : ((roundHalfEven (a / 2 ^ quantumExponent a) : ℤ) : ℚ) ≤ 2 ^ (53 : ℤ) :=
    roundHalfEven_le_two_zpow (by norm_num) hdiv
  have hnn : 0 ≤ roundHalfEven (a / 2 ^ quantumExponent a) :=
    roundHalfEven_nonneg (div_nonneg ha (le_of_lt (two_zpow_pos _)))
  obtain ⟨n, hn⟩ := Int.eq_ofNat_of_zero_le hnn
  have hval : roundMagnitude a = (n : ℚ) * 2 ^ quantumExponent a := by
    unfold roundMagnitude
    rw [hn]
    simp
  have hn53 : n ≤ 2 ^ 53 := by
    rw [hn] at hle
    have : ((n : ℤ) : ℚ) ≤ (((2 ^ 53 : ℕ) : ℤ) : ℚ) := by
      calc ((n : ℤ) : ℚ) ≤ 2 ^ (53 : ℤ) := hle
        _ = (((2 ^ 53 : ℕ) : ℤ) : ℚ) := by norm_num
    exact_mod_cast this
  rw [hval]
  rcases lt_or_eq_of_le hn53 with hlt | heq
  · exact roundMagnitude_representable n _ hlt hk
  · have hrew : (n : ℚ) * 2 ^ quantumExponent a =
        ((2 ^ 52 : ℕ) : ℚ) * 2 ^ (quantumExponent a + 1) := by
      rw [heq, zpow_add₀ (by norm_num : (2 : ℚ) ≠ 0)]
      push_cast
      ring
    rw [hrew]
    exact roundMagnitude_representable (2 ^ 52) _ (by norm_num) (by omega)

theorem roundMagnitude_eval (a : ℚ) (e n : ℤ) (ha : 0 < a) (he : -1074 ≤ e)
    (hlo : e = -1074 ∨ 2 ^ (e + 52) ≤ a) (hhi : a < 2 ^ (e + 53))
    (h1 : (n : ℚ) - 1 / 2 < a / 2 ^ e) (h2 : a / 2 ^ e < (n : ℚ) + 1 / 2) :
    roundMagnitude a = (n : ℚ) * 2 ^ e := by
  have hlog : Int.log 2 a < e + 53 := log_lt_of_lt ha hhi
  have hq : quantumExponent a = e := by
    unfold quantumExponent
    rcases hlo with h | h
    · rw [h] at hlog ⊢
      exact max_eq_right (by omega)
    · have := le_log_of_le ha h
      rw [max_eq_left (by omega)]
      omega
  rw [roundMagnitude_of_quantum hq, roundHalfEven_eq_of_near _ n h1 h2]

theorem fl_of_nonneg {x : ℚ} (h : 0 ≤ x) : fl x = roundMagnitude x := by
  unfold fl
  rw [if_neg (not_lt.mpr h)]

theorem fl_of_neg {x : ℚ} (h : x < 0) : fl x = -roundMagnitude (-x) := by
  unfold fl
  rw [if_pos h]

theorem fl_zero : fl 0 = 0 := by
  rw [fl_of_nonneg le_rfl, roundMagnitude_zero]

theorem fl_nonneg {x : ℚ} (h : 0 ≤ x) : 0 ≤ fl x := by
  rw [fl_of_nonneg h]
  exact roundMagnitude_nonneg h

theorem fl_nonpos {x : ℚ} (h : x ≤ 0) : fl x ≤ 0 := by
  rcases eq_or_lt_of_le h with h0 | hneg
  · rw [h0, fl_zero]
  · rw [fl_of_neg hneg]
    have h2 : 0 ≤ roundMagnitude (-x) := roundMagnitude_nonneg (by linarith)
    linarith

theorem fl_mono {x y : ℚ} (h : x ≤ y) : fl x ≤ fl y := by
  rcases lt_or_le x 0 with hx | hx
  · rcases lt_or_le y 0 with hy | hy
    · rw [fl_of_neg hx, fl_of_neg hy]
      have h2 : roundMagnitude (-y) ≤ roundMagnitude (-x) :=
        roundMagnitude_mono (by linarith) (by linarith)
      linarith
    · exact le_trans (fl_nonpos (le_of_lt hx)) (fl_nonneg hy)
  · rw [fl_of_nonneg hx, fl_of_nonneg (le_trans hx h)]
    exact roundMagnitude_mono hx h

theorem fl_idem (x : ℚ) : fl (fl x) = fl x := by
  rcases lt_or_le x 0 with hx | hx
  · have hnn : 0 ≤ roundMagnitude (-x) := roundMagnitude_nonneg (by linarith)
    rcases eq_or_lt_of_le hnn with h0 | hpos
    · rw [fl_of_neg hx, ← h0]
      simp [fl_zero]
    · rw [fl_of_neg hx, fl_of_neg (by linarith), neg_neg, roundMagnitude_idem (by linarith)]
  · rw [fl_of_nonneg hx, fl_of_nonneg (roundMagnitude_nonneg hx), roundMagnitude_idem hx]

theorem fl_representable (n : ℕ) (k : ℤ) (hn : n < 2 ^ 53) (hk : -1074 ≤ k) :
    fl ((n : ℚ) * 2 ^ k) = (n : ℚ) * 2 ^ k := by
  rw [fl_of_nonneg (mul_nonneg (Nat.cast_nonneg n) (le_of_lt (two_zpow_pos k))),
    roundMagnitude_representable n k hn hk]

theorem fl_eval (x : ℚ) (e n : ℤ) (hx : 0 < x) (he : -1074 ≤ e)
    (hlo : e = -1074 ∨ 2 ^ (e + 52) ≤ x) (hhi : x < 2 ^ (e + 53))
    (h1 : (n : ℚ) - 1 / 2 < x / 2 ^ e) (h2 : x / 2 ^ e < (n : ℚ) + 1 / 2) :
    fl x = (n : ℚ) * 2 ^ e := by
  rw [fl_of_nonneg (le_of_lt hx), roundMagnitude_eval x e n hx he hlo hhi h1 h2]

theorem fl_neg (x : ℚ) : fl (-x) = -fl x := by
  rcases lt_trichotomy x 0 with h | h | h
  · rw [fl_of_neg h, fl_of_nonneg (by linarith), neg_neg]
  · rw [h, neg_zero, fl_zero, neg_zero]
  · rw [fl_of_neg (by linarith), fl_of_nonneg (le_of_lt h), neg_neg]

theorem fl_natCast (n : ℕ) (hn : n < 2 ^ 53) : fl (n : ℚ) = n := by
  have h := fl_representable n 0 hn (by norm_num)
  simpa using h

theorem fl_half : fl (1 / 2) = 1 / 2 := by
  have h := fl_representable 1 (-1) (by norm_num) (by norm_num)
  norm_num at h
  exact h

theorem fl_one_hundredth : fl (1 / 100) = 5764607523034235 / 576460752303423488 := by
  rw [fl_eval (1 / 100) (-59) 5764607523034235 (by norm_num) (by norm_num)
    (Or.inr (by norm_num)) (by norm_num) (by norm_num) (by norm_num)]
  norm_num

theorem one_hundredth_lt_literal : (1 : ℚ) / 100 < fl (1 / 100) := by
  rw [fl_one_hundredth]
  norm_num

theorem fl_one_tenth : fl (1 / 10) = 3602879701896397 / 36028797018963968 := by
  rw [fl_eval (1 / 10) (-56) 7205759403792794 (by norm_num) (by norm_num)
    (Or.inr (by norm_num)) (by norm_num) (by norm_num) (by norm_num)]
  norm_num

theorem fl_eleven_hundredths : fl (11 / 100) = 7926335344172073 / 72057594037927936 := by
  rw [fl_eval (11 / 100) (-56) 7926335344172073 (by norm_num) (by norm_num)
    (Or.inr (by norm_num)) (by norm_num) (by norm_num) (by norm_num)]
  norm_num

theorem fl_two_fifths : fl (2 / 5) = 3602879701896397 / 9007199254740992 := by
  rw [fl_eval (2 / 5) (-54) 7205759403792794 (by norm_num) (by norm_num)
    (Or.inr (by norm_num)) (by norm_num) (by norm_num) (by norm_num)]
  norm_num

theorem fl_three_fifths : fl (3 / 5) = 5404319552844595 / 9007199254740992 := by
  rw [fl_eval (3 / 5) (-53) 5404319552844595 (by norm_num) (by norm_num)
    (Or.inr (by norm_num)) (by norm_num) (by norm_num) (by norm_num)]
  norm_num

theorem fl_three_tenths : fl (3 / 10) = 5404319552844595 / 18014398509481984 := by
  rw [fl_eval (3 / 10) (-54) 5404319552844595 (by norm_num) (by norm_num)
    (Or.inr (by norm_num)) (by norm_num) (by norm_num) (by norm_num)]
  norm_num

theorem fl_0_0156 : fl (39 / 2500) = 4496393867966703 / 288230376151711744 := by
  rw [fl_eval (39 / 2500) (-59) 8992787735933406 (by norm_num) (by norm_num)
    (Or.inr (by norm_num)) (by norm_num) (by norm_num) (by norm_num)]
  norm_num

theorem fl_0_015600000000000001 :
    fl (15600000000000001 / 1000000000000000000) =
      8992787735933407 / 576460752303423488 := by
  rw [fl_eval (15600000000000001 / 1000000000000000000) (-59) 8992787735933407
    (by norm_num) (by norm_num) (Or.inr (by norm_num)) (by norm_num) (by norm_num)
    (by norm_num)]
  norm_num

theorem bbox_height_from_zero (name : String) (ymax : ℚ) :
    bbox_height (boxDetection name 0 ymax) = fl ymax := by
  simp only [bbox_height, boxDetection, jsSub, fl_zero, sub_zero]
  exact fl_idem _

theorem fl_one_hundred : fl 100 = 100 := by
  have h := fl_natCast 100 (by norm_num)
  simpa using h

theorem fl_quarter : fl (1 / 4) = 1 / 4 := by
  have h := fl_representable 1 (-2) (by norm_num) (by norm_num)
  norm_num at h
  exact h


/-! ### The boxes of the scenarios -/

theorem bbox_center_x_of_two_fifths (d : Detection) (h1 : d.bbox_normalized.xmin = 2 / 5)
    (h2 : d.bbox_normalized.xmax = 3 / 5) : bbox_center_x d = 1 / 2 := by
  have hone : fl 1 = 1 := by
    have h := fl_natCast 1 (by norm_num)
    simpa using h
  simp only [bbox_center_x, h1, h2, jsDiv, jsAdd, fl_two_fifths, fl_three_fifths]
  norm_num
  rw [hone]
  exact fl_half

theorem bbox_height_of_three_tenths (d : Detection) (h1 : d.bbox_normalized.ymin = 3 / 10)
    (h2 : d.bbox_normalized.ymax = 1 / 2) :
    bbox_height d = 3602879701896397 / 18014398509481984 := by
  have h := fl_representable 3602879701896397 (-54) (by norm_num) (by norm_num)
  norm_num at h
  simp only [bbox_height, h1, h2, jsSub, fl_half, fl_three_tenths]
  norm_num
  exact h

theorem distance_of_fifth (cfg : ViewConfig) (d : Detection) (hs : cfg.DISTANCE_SCALE = 100)
    (hh : bbox_height d = 3602879701896397 / 18014398509481984) : distance cfg d = 500 := by
  simp only [distance, jsDiv, hh, hs]
  norm_num
  rw [fl_one_hundred]
  rw [fl_eval _ (-44) 8796093022208000 (by norm_num) (by norm_num)
    (Or.inr (by norm_num)) (by norm_num) (by norm_num) (by norm_num)]
  norm_num

theorem bbox_height_tenth_box (name : String) :
    bbox_height (boxDetection name (1 / 10) (11 / 100)) =
      720575940379279 / 72057594037927936 := by
  have h := fl_representable 720575940379279 (-56) (by norm_num) (by norm_num)
  norm_num at h
  simp only [bbox_height, boxDetection, jsSub, fl_one_tenth, fl_eleven_hundredths]
  norm_num
  exact h

theorem passesFilters_carDetection :
    passesFilters scenarioConfig (carDetection (9 / 10)) = true := by
  simp only [passesFilters, Bool.and_eq_true, decide_eq_true_eq]
  constructor
  · norm_num [carDetection, scenarioConfig]
  · rw [bbox_height_of_three_tenths _ rfl rfl, fl_one_hundredth]
    norm_num

theorem passesFilters_boxDetection (name : String) :
    passesFilters scenarioConfig (boxDetection name (3 / 10) (1 / 2)) = true := by
  simp only [passesFilters, Bool.and_eq_true, decide_eq_true_eq]
  constructor
  · norm_num [boxDetection, scenarioConfig]
  · rw [bbox_height_of_three_tenths _ rfl rfl, fl_one_hundredth]
    norm_num

theorem mapX_of_centred (env : Env) (cfg : ViewConfig) (d : Detection)
    (hsin : env.math.sin 0 = 0) (hcentre : bbox_center_x d = 1 / 2) :
    mapX env cfg d = jsDiv (env.CANVAS_WIDTH : ℚ) 2 := by
  have hang : angleDegrees cfg d = 0 := by
    unfold angleDegrees jsMul jsSub
    rw [hcentre, sub_self, fl_zero, zero_mul, fl_zero]
  have hrad : angleRadians env cfg d = 0 := by
    unfold angleRadians jsMul
    rw [hang, zero_mul, fl_zero]
  unfold mapX jsAdd jsMul
  rw [hrad, hsin, mul_zero, fl_zero, add_zero]
  unfold jsDiv
  exact fl_idem _

theorem mapY_of_centred (env : Env) (cfg : ViewConfig) (d : Detection)
    (hcos : env.math.cos 0 = 1) (hcentre : bbox_center_x d = 1 / 2) :
    mapY env cfg d = jsSub (env.CANVAS_HEIGHT : ℚ) (distance cfg d) := by
  have hang : angleDegrees cfg d = 0 := by
    unfold angleDegrees jsMul jsSub
    rw [hcentre, sub_self, fl_zero, zero_mul, fl_zero]
  have hrad : angleRadians env cfg d = 0 := by
    unfold angleRadians jsMul
    rw [hang, zero_mul, fl_zero]
  have hdist : fl (distance cfg d) = distance cfg d := by
    unfold distance jsDiv
    exact fl_idem _
  unfold mapY jsMul
  rw [hrad, hcos, mul_one, hdist]

theorem jsDiv_width_exact (n : ℕ) (hn : n < 2 ^ 53) : jsDiv (n : ℚ) 2 = (n : ℚ) / 2 := by
  have h := fl_representable n (-1) hn (by norm_num)
  have h2 : (n : ℚ) * 2 ^ (-1 : ℤ) = (n : ℚ) / 2 := by
    rw [zpow_neg_one]
    rfl
  rw [h2] at h
  exact h

theorem mapX_scenario (d : Detection) (hcentre : bbox_center_x d = 1 / 2) :
    mapX sampleEnv scenarioConfig d = 400 := by
  rw [mapX_of_centred sampleEnv scenarioConfig d (by norm_num [sampleEnv, sampleMath]) hcentre]
  have h := jsDiv_width_exact 800 (by norm_num)
  simp only [sampleEnv]
  rw [h]
  norm_num

theorem mapY_scenario (d : Detection) (hcentre : bbox_center_x d = 1 / 2)
    (hdist : distance scenarioConfig d = 500) :
    mapY sampleEnv scenarioConfig d = 100 := by
  rw [mapY_of_centred sampleEnv scenarioConfig d (by norm_num [sampleEnv, sampleMath]) hcentre,
    hdist]
  simp only [jsSub, sampleEnv]
  norm_num
  exact fl_one_hundred

/-! ## The per-detection filters -/

theorem drawDetection_of_passes (env : Env) (cfg : ViewConfig) (d : Detection)
    (h : passesFilters cfg d = true) : drawDetection env cfg d = drawMarker env cfg d := by
  simp only [passesFilters, Bool.and_eq_true, decide_eq_true_eq] at h
  rw [drawDetection, if_neg (not_lt.mpr h.1), if_neg (not_lt.mpr h.2)]

theorem drawDetection_of_not_passes (env : Env) (cfg : ViewConfig) (d : Detection)
    (h : passesFilters cfg d = false) : drawDetection env cfg d = [] := by
  unfold drawDetection
  by_cases h1 : d.confidence < cfg.MIN_CONFIDENCE
  · rw [if_pos h1]
  · by_cases h2 : bbox_height d < fl (1 / 100)
    · rw [if_neg h1, if_pos h2]
    · exfalso
      have hp : passesFilters cfg d = true := by
        simp only [passesFilters, Bool.and_eq_true, decide_eq_true_eq]
        exact ⟨not_lt.mp h1, not_lt.mp h2⟩
      rw [h] at hp
      exact Bool.false_ne_true hp

theorem flatMap_drawDetection (env : Env) (cfg : ViewConfig) (ds : List Detection) :
    ds.flatMap (drawDetection env cfg) =
      (ds.filter (passesFilters cfg)).flatMap (drawMarker env cfg) := by
  induction ds with
  | nil => rfl
  | cons d ds ih =>
    cases h : passesFilters cfg d
    · simp [List.flatMap_cons, List.filter_cons, h, drawDetection_of_not_passes env cfg d h, ih]
    · simp [List.flatMap_cons, List.filter_cons, h, drawDetection_of_passes env cfg d h, ih]

theorem drawMinimap_array (env : Env) (cfg : ViewConfig) (ds : List Detection) :
    drawMinimap env cfg (.array ds) =
      (drawIdle env cfg ++ ds.flatMap (drawDetection env cfg), none) := by
  cases ds with
  | nil => simp [drawMinimap]
  | cons d ds => simp [drawMinimap]

theorem drawDetection_skipped_in_list (env : Env) (cfg : ViewConfig) (pre post : List Detection)
    (d : Detection) (h : drawDetection env cfg d = []) :
    drawMinimap env cfg (.array (pre ++ d :: post)) =
      (drawIdle env cfg ++ (pre ++ post).flatMap (drawDetection env cfg), none) := by
  rw [drawMinimap_array]
  simp [List.flatMap_append, List.flatMap_cons, h]

theorem count_arc_markers (env : Env) (cfg : ViewConfig) (ds : List Detection) :
    ((ds.flatMap (drawMarker env cfg)).filter DrawOp.isArc).length = ds.length := by
  induction ds with
  | nil => rfl
  | cons d ds ih =>
    simp only [List.flatMap_cons, List.filter_append, List.length_append, ih, List.length_cons]
    simp [drawMarker, DrawOp.isArc, List.filter_cons]
    omega

theorem count_text_markers (env : Env) (cfg : ViewConfig) (ds : List Detection) :
    ((ds.flatMap (drawMarker env cfg)).filter DrawOp.isFillText).length = ds.length := by
  induction ds with
  | nil => rfl
  | cons d ds ih =>
    simp only [List.flatMap_cons, List.filter_append, List.length_append, ih, List.length_cons]
    simp [drawMarker, DrawOp.isFillText, List.filter_cons]
    omega

/-- C1: a detection whose confidence is below `MIN_CONFIDENCE` makes the callback
perform no operation on the context, and `drawMinimap` on a list that holds it
performs exactly the idle operations (clear, background, legend) followed by
the operations of the other detections, none of which depends on it. -/
theorem C1_low_confidence_emits_no_draw_call (env : Env) (cfg : ViewConfig)
    (pre post : List Detection) (d : Detection) (h : d.confidence < cfg.MIN_CONFIDENCE) :
    drawDetection env cfg d = [] ∧
    drawMinimap env cfg (.array (pre ++ d :: post)) =
      (drawIdle env cfg ++ (pre ++ post).flatMap (drawDetection env cfg), none) ∧
    drawMinimap env cfg (.array [d]) = (drawIdle env cfg, none) := by
  have h0 : drawDetection env cfg d = [] := by simp [drawDetection, h]
  refine ⟨h0, drawDetection_skipped_in_list env cfg pre post d h0, ?_⟩
  simpa using drawDetection_skipped_in_list env cfg [] [] d h0

/-- C1, the scenario of the specification: the car detection with confidence 0.3
under minimum confidence 0.5 produces no marker. -/
theorem C1_low_confidence_scenario :
    drawDetection sampleEnv scenarioConfig (carDetection (3 / 10)) = [] ∧
    drawMinimap sampleEnv scenarioConfig
        (.array ([] ++ carDetection (3 / 10) :: [])) =
      (drawIdle sampleEnv scenarioConfig ++
        ([] ++ []).flatMap (drawDetection sampleEnv scenarioConfig), none) ∧
    drawMinimap sampleEnv scenarioConfig (.array [carDetection (3 / 10)]) =
      (drawIdle sampleEnv scenarioConfig, none) :=
  C1_low_confidence_emits_no_draw_call sampleEnv scenarioConfig [] [] (carDetection (3 / 10))
    (by norm_num [carDetection, scenarioConfig])

/-- C2: a detection whose box height, the binary64 value that line 68 computes
for `ymax - ymin`, is below the literal `0.01` (zero and negative heights
included) makes the callback perform no operation on the context, whatever its
confidence and `MIN_CONFIDENCE` are, and `drawMinimap` on a list that holds it
performs only the idle operations and the operations of the other
detections. -/
theorem C2_flat_box_emits_no_draw_call (env : Env) (cfg : ViewConfig)
    (pre post : List Detection) (d : Detection) (h : bbox_height d < fl (1 / 100)) :
    drawDetection env cfg d = [] ∧
    drawMinimap env cfg (.array (pre ++ d :: post)) =
      (drawIdle env cfg ++ (pre ++ post).flatMap (drawDetection env cfg), none) ∧
    drawMinimap env cfg (.array [d]) = (drawIdle env cfg, none) := by
  have h0 : drawDetection env cfg d = [] := by
    unfold drawDetection
    by_cases h1 : d.confidence < cfg.MIN_CONFIDENCE
    · rw [if_pos h1]
    · rw [if_neg h1, if_pos h]
  refine ⟨h0, drawDetection_skipped_in_list env cfg pre post d h0, ?_⟩
  simpa using drawDetection_skipped_in_list env cfg [] [] d h0

/-- C2 at the box `ymin` 0.1, `ymax` 0.11 with confidence 0.9 over the threshold
0.5: the script computes the height 0.009999999999999995, which is below 0.01,
and draws nothing for it. -/
theorem C2_box_from_0_10_to_0_11_instance :
    drawDetection sampleEnv scenarioConfig (boxDetection "car" (1 / 10) (11 / 100)) = [] ∧
    drawMinimap sampleEnv scenarioConfig
        (.array ([carDetection (9 / 10)] ++ boxDetection "car" (1 / 10) (11 / 100) :: [])) =
      (drawIdle sampleEnv scenarioConfig ++
        ([carDetection (9 / 10)] ++ []).flatMap (drawDetection sampleEnv scenarioConfig),
        none) ∧
    drawMinimap sampleEnv scenarioConfig (.array [boxDetection "car" (1 / 10) (11 / 100)]) =
      (drawIdle sampleEnv scenarioConfig, none) :=
  C2_flat_box_emits_no_draw_call sampleEnv scenarioConfig [carDetection (9 / 10)] []
    (boxDetection "car" (1 / 10) (11 / 100))
    (by rw [bbox_height_tenth_box, fl_one_hundredth]; norm_num)

/-- C10: `drawMinimap` performs the idle operations and then, for each detection
of the list whose confidence is at least `MIN_CONFIDENCE` and whose box height
`ymax - ymin`, as line 68 computes it, is at least `0.01`, in list order, the
operations of one marker (one `arc` and one `fillText`), and nothing for the
others; the number of marker arcs and of marker texts is the number of
detections that pass both filters. -/
theorem C10_exactly_the_passing_detections_are_drawn (env : Env) (cfg : ViewConfig)
    (ds : List Detection) :
    drawMinimap env cfg (.array ds) =
      (drawIdle env cfg ++ (ds.filter (passesFilters cfg)).flatMap (drawMarker env cfg), none) ∧
    (∀ d, ((drawMarker env cfg d).filter DrawOp.isArc).length = 1 ∧
          ((drawMarker env cfg d).filter DrawOp.isFillText).length = 1) ∧
    ((ds.flatMap (drawDetection env cfg)).filter DrawOp.isArc).length =
      (ds.filter (passesFilters cfg)).length ∧
    ((ds.flatMap (drawDetection env cfg)).filter DrawOp.isFillText).length =
      (ds.filter (passesFilters cfg)).length := by
  refine ⟨?_, ?_, ?_, ?_⟩
  · rw [drawMinimap_array, flatMap_drawDetection]
  · intro d
    constructor <;> simp [drawMarker, DrawOp.isArc, DrawOp.isFillText, List.filter_cons]
  · rw [flatMap_drawDetection, count_arc_markers]
  · rw [flatMap_drawDetection, count_text_markers]

/-! ## Projection -/

/-- C3: for a detection that passes both filters and whose box centre, the value
that line 67 computes for `(xmin + xmax) / 2`, is `0.5`, whatever
`HORIZONTAL_FOV` is, the angle is `0`, the distance is the quotient
`DISTANCE_SCALE / bbox_height` of line 72, and the marker is drawn at
`mapX = CANVAS_WIDTH / 2` and `mapY = CANVAS_HEIGHT - distance` as the script
computes them (the annotation 10 above it), given that the platform has
`sin 0 = 0` and `cos 0 = 1`; the quotient `CANVAS_WIDTH / 2` is exact for every
width below `2 ^ 53`. -/
theorem C3_centred_detection_is_straight_ahead (env : Env) (cfg : ViewConfig) (d : Detection)
    (hsin : env.math.sin 0 = 0) (hcos : env.math.cos 0 = 1)
    (hconf : cfg.MIN_CONFIDENCE ≤ d.confidence)
    (hheight : fl (1 / 100) ≤ bbox_height d)
    (hcentre : bbox_center_x d = 1 / 2) :
    angleDegrees cfg d = 0 ∧
    distance cfg d = jsDiv (fl (cfg.DISTANCE_SCALE : ℚ)) (bbox_height d) ∧
    mapX env cfg d = jsDiv (env.CANVAS_WIDTH : ℚ) 2 ∧
    (env.CANVAS_WIDTH < 2 ^ 53 → mapX env cfg d = (env.CANVAS_WIDTH : ℚ) / 2) ∧
    mapY env cfg d = jsSub (env.CANVAS_HEIGHT : ℚ) (distance cfg d) ∧
    drawDetection env cfg d =
      [.beginPath,
       .arc (jsDiv (env.CANVAS_WIDTH : ℚ) 2)
         (jsSub (env.CANVAS_HEIGHT : ℚ) (distance cfg d)) 6 0 (jsMul 2 env.math.PI),
       .setFillStyle (color d), .fill,
       .setFillStyle (color d), .setFont "14px sans-serif", .setTextAlign "center",
       .fillText (label d) (jsDiv (env.CANVAS_WIDTH : ℚ) 2)
         (jsSub (jsSub (env.CANVAS_HEIGHT : ℚ) (distance cfg d)) 10)] := by
  have hang : angleDegrees cfg d = 0 := by
    unfold angleDegrees jsMul jsSub
    rw [hcentre, sub_self, fl_zero, zero_mul, fl_zero]
  have hx := mapX_of_centred env cfg d hsin hcentre
  have hy := mapY_of_centred env cfg d hcos hcentre
  have hp : passesFilters cfg d = true := by
    simp only [passesFilters, Bool.and_eq_true, decide_eq_true_eq]
    exact ⟨hconf, hheight⟩
  refine ⟨hang, rfl, hx, ?_, hy, ?_⟩
  · intro hw
    rw [hx, jsDiv_width_exact env.CANVAS_WIDTH hw]
  · rw [drawDetection_of_passes env cfg d hp, drawMarker, hx, hy]

/-- C3, the scenario of the specification: the car with confidence 0.9 and the
box 0.4, 0.3, 0.6, 0.5 under minimum confidence 0.5, field of view 90 and
distance scale 100 has angle 0 and distance 500; on a canvas of 800 by 600 its
marker is at `x = 400`, which is offset 0 from the observer, and at
`y = 100`, which is 500 above the observer at `y = 600`. -/
theorem C3_scenario :
    angleDegrees scenarioConfig (carDetection (9 / 10)) = 0 ∧
    distance scenarioConfig (carDetection (9 / 10)) = 500 ∧
    mapX sampleEnv scenarioConfig (carDetection (9 / 10)) = 400 ∧
    mapY sampleEnv scenarioConfig (carDetection (9 / 10)) = 100 := by
  have h := C3_centred_detection_is_straight_ahead sampleEnv scenarioConfig
    (carDetection (9 / 10))
    (by norm_num [sampleEnv, sampleMath]) (by norm_num [sampleEnv, sampleMath])
    (by norm_num [carDetection, scenarioConfig])
    (by rw [bbox_height_of_three_tenths _ rfl rfl, fl_one_hundredth]; norm_num)
    (bbox_center_x_of_two_fifths _ rfl rfl)
  have hd : distance scenarioConfig (carDetection (9 / 10)) = 500 :=
    distance_of_fifth _ _ rfl (bbox_height_of_three_tenths _ rfl rfl)
  refine ⟨h.1, hd, ?_, ?_⟩
  · rw [h.2.2.2.1 (by norm_num [sampleEnv])]
    norm_num [sampleEnv]
  · rw [h.2.2.2.2.1, hd]
    simp only [jsSub, sampleEnv]
    norm_num
    exact fl_one_hundred

theorem distance_0_0156 :
    distance scenarioConfig (boxDetection "car" 0 (39 / 2500)) =
      1762037865025641 / 274877906944 := by
  simp only [distance, jsDiv, bbox_height_from_zero, fl_0_0156, scenarioConfig]
  norm_num
  rw [fl_one_hundred]
  rw [fl_eval _ (-40) 7048151460102564 (by norm_num) (by norm_num)
    (Or.inr (by norm_num)) (by norm_num) (by norm_num) (by norm_num)]
  norm_num

theorem distance_0_015600000000000001 :
    distance scenarioConfig
        (boxDetection "car" 0 (15600000000000001 / 1000000000000000000)) =
      1762037865025641 / 274877906944 := by
  simp only [distance, jsDiv, bbox_height_from_zero, fl_0_015600000000000001, scenarioConfig]
  norm_num
  rw [fl_one_hundred]
  rw [fl_eval _ (-40) 7048151460102564 (by norm_num) (by norm_num)
    (Or.inr (by norm_num)) (by norm_num) (by norm_num) (by norm_num)]
  norm_num

theorem distance_negative_scale_quarter :
    distance { scenarioConfig with DISTANCE_SCALE := -100 } (boxDetection "car" 0 (1 / 4)) =
      -400 := by
  have h400 : fl 400 = 400 := by
    have h := fl_natCast 400 (by norm_num)
    simpa using h
  simp only [distance, jsDiv, bbox_height_from_zero, fl_quarter]
  norm_num
  rw [fl_neg, fl_one_hundred]
  norm_num
  rw [fl_neg, h400]

theorem distance_negative_scale_half :
    distance { scenarioConfig with DISTANCE_SCALE := -100 } (boxDetection "car" 0 (1 / 2)) =
      -200 := by
  have h200 : fl 200 = 200 := by
    have h := fl_natCast 200 (by norm_num)
    simpa using h
  simp only [distance, jsDiv, bbox_height_from_zero, fl_half]
  norm_num
  rw [fl_neg, fl_one_hundred]
  norm_num
  rw [fl_neg, h200]

/-- C4 as stated fails on the values the script computes.  At distance scale 100
the box heights 0.0156 and 0.015600000000000001 both pass the height filter
and both give the distance 6410.25641025641, so the distance of the taller box
is not smaller.  At distance scale -100 the box heights 0.25 and 0.5 give the
distances -400 and -200, so the distance of the taller box is larger. -/
theorem C4_distance_not_strictly_decreasing :
    (fl (1 / 100) ≤ bbox_height (boxDetection "car" 0 (39 / 2500)) ∧
      bbox_height (boxDetection "car" 0 (39 / 2500)) <
        bbox_height (boxDetection "car" 0 (15600000000000001 / 1000000000000000000)) ∧
      ¬ (distance scenarioConfig
            (boxDetection "car" 0 (15600000000000001 / 1000000000000000000)) <
          distance scenarioConfig (boxDetection "car" 0 (39 / 2500)))) ∧
    (fl (1 / 100) ≤ bbox_height (boxDetection "car" 0 (1 / 4)) ∧
      bbox_height (boxDetection "car" 0 (1 / 4)) < bbox_height (boxDetection "car" 0 (1 / 2)) ∧
      ¬ (distance { scenarioConfig with DISTANCE_SCALE := -100 } (boxDetection "car" 0 (1 / 2)) ≤
          distance { scenarioConfig with DISTANCE_SCALE := -100 }
            (boxDetection "car" 0 (1 / 4)))) := by
  refine ⟨⟨?_, ?_, ?_⟩, ⟨?_, ?_, ?_⟩⟩
  · rw [bbox_height_from_zero, fl_0_0156, fl_one_hundredth]; norm_num
  · rw [bbox_height_from_zero, bbox_height_from_zero, fl_0_0156, fl_0_015600000000000001]
    norm_num
  · rw [distance_0_0156, distance_0_015600000000000001]
    exact lt_irrefl _
  · rw [bbox_height_from_zero, fl_quarter, fl_one_hundredth]; norm_num
  · rw [bbox_height_from_zero, bbox_height_from_zero, fl_quarter, fl_half]
    norm_num
  · rw [distance_negative_scale_quarter, distance_negative_scale_half]
    norm_num

/-- C4, amended: for every fixed `DISTANCE_SCALE` that is not negative and every
two detections whose box heights, as line 68 computes them, satisfy
`0.01 ≤ h1 < h2` (both pass the height filter), the distance that line 72
computes for the taller box is not larger than the one for the other box. -/
theorem C4_distance_not_larger_for_taller_box (cfg : ViewConfig) (d1 d2 : Detection)
    (hscale : 0 ≤ cfg.DISTANCE_SCALE) (h1 : fl (1 / 100) ≤ bbox_height d1)
    (h12 : bbox_height d1 < bbox_height d2) :
    distance cfg d2 ≤ distance cfg d1 := by
  have hpos : (0 : ℚ) < bbox_height d1 :=
    lt_of_lt_of_le (lt_trans (by norm_num) one_hundredth_lt_literal) h1
  have hs : (0 : ℚ) ≤ fl (cfg.DISTANCE_SCALE : ℚ) := fl_nonneg (by exact_mod_cast hscale)
  unfold distance jsDiv
  exact fl_mono (div_le_div_of_nonneg_left hs hpos (le_of_lt h12))

/-- C4 amended, at distance scale 100 and the box heights 0.0156 and
0.015600000000000001, which give the same distance. -/
theorem C4_not_larger_instance :
    distance scenarioConfig (boxDetection "car" 0 (15600000000000001 / 1000000000000000000)) ≤
      distance scenarioConfig (boxDetection "car" 0 (39 / 2500)) :=
  C4_distance_not_larger_for_taller_box scenarioConfig (boxDetection "car" 0 (39 / 2500))
    (boxDetection "car" 0 (15600000000000001 / 1000000000000000000)) (by decide)
    (by rw [bbox_height_from_zero, fl_0_0156, fl_one_hundredth]; norm_num)
    (by
      rw [bbox_height_from_zero, bbox_height_from_zero, fl_0_0156, fl_0_015600000000000001]
      norm_num)

/-! ## The guard of the division -/

theorem distance_at_large_scale :
    distance { scenarioConfig with DISTANCE_SCALE := 9007199254740989 }
        (boxDetection "car" 0 (1 / 100)) = 900719925474098944 := by
  have hs : fl 9007199254740989 = 9007199254740989 := by
    have h := fl_natCast 9007199254740989 (by norm_num)
    simpa using h
  simp only [distance, jsDiv, bbox_height_from_zero, fl_one_hundredth]
  norm_num
  rw [hs]
  rw [fl_eval _ 7 7036874417766398 (by norm_num) (by norm_num)
    (Or.inr (by norm_num)) (by norm_num) (by norm_num) (by norm_num)]
  norm_num

/-- C9 as stated fails on the value the script computes: at distance scale
9007199254740989 the box `ymin` 0, `ymax` 0.01 with confidence 0.9 passes both
filters, so the division is reached with the divisor 0.01, and the quotient
rounds to 900719925474098944, which is above `100 * DISTANCE_SCALE`, that is
900719925474098900. -/
theorem C9_quotient_rounds_above_the_product :
    drawDetection sampleEnv { scenarioConfig with DISTANCE_SCALE := 9007199254740989 }
        (boxDetection "car" 0 (1 / 100)) ≠ [] ∧
    (0 : ℤ) ≤ ({ scenarioConfig with DISTANCE_SCALE := 9007199254740989 } : ViewConfig).DISTANCE_SCALE ∧
    distance { scenarioConfig with DISTANCE_SCALE := 9007199254740989 }
        (boxDetection "car" 0 (1 / 100)) = 900719925474098944 ∧
    ¬ (distance { scenarioConfig with DISTANCE_SCALE := 9007199254740989 }
          (boxDetection "car" 0 (1 / 100)) ≤
        100 * ((({ scenarioConfig with DISTANCE_SCALE := 9007199254740989 } :
          ViewConfig).DISTANCE_SCALE : ℤ) : ℚ)) := by
  refine ⟨?_, by decide, distance_at_large_scale, ?_⟩
  · have hp : passesFilters { scenarioConfig with DISTANCE_SCALE := 9007199254740989 }
        (boxDetection "car" 0 (1 / 100)) = true := by
      simp only [passesFilters, Bool.and_eq_true, decide_eq_true_eq]
      constructor
      · norm_num [boxDetection, scenarioConfig]
      · rw [bbox_height_from_zero]
    rw [drawDetection_of_passes _ _ _ hp]
    simp [drawMarker]
  · rw [distance_at_large_scale]
    norm_num

/-- C9, amended: whenever the callback gets past both filters (it performs some
operation on the context, hence evaluates `DISTANCE_SCALE / bbox_height`), the
divisor is at least `0.01`, so it is positive and not zero, and for every
`DISTANCE_SCALE` that is not negative the computed distance is not negative
and is at most the binary64 value nearest to `100 * DISTANCE_SCALE`; that value
is `100 * DISTANCE_SCALE` itself for every `DISTANCE_SCALE` below `2 ^ 46`. -/
theorem C9_division_is_guarded (env : Env) (cfg : ViewConfig) (d : Detection)
    (hreach : drawDetection env cfg d ≠ []) :
    1 / 100 ≤ bbox_height d ∧ 0 < bbox_height d ∧ bbox_height d ≠ 0 ∧
    fl (1 / 100) ≤ bbox_height d ∧
    (0 ≤ cfg.DISTANCE_SCALE →
      0 ≤ distance cfg d ∧
      distance cfg d ≤ fl (100 * fl (cfg.DISTANCE_SCALE : ℚ)) ∧
      (cfg.DISTANCE_SCALE < 2 ^ 46 → distance cfg d ≤ 100 * (cfg.DISTANCE_SCALE : ℚ))) := by
  have hh : fl (1 / 100) ≤ bbox_height d := by
    by_contra hlt
    apply hreach
    unfold drawDetection
    by_cases h1 : d.confidence < cfg.MIN_CONFIDENCE
    · rw [if_pos h1]
    · rw [if_neg h1, if_pos (not_le.mp hlt)]
  have hlit : (1 : ℚ) / 100 < bbox_height d := lt_of_lt_of_le one_hundredth_lt_literal hh
  have hpos : (0 : ℚ) < bbox_height d := lt_trans (by norm_num) hlit
  refine ⟨le_of_lt hlit, hpos, ne_of_gt hpos, hh, ?_⟩
  intro hs
  have hs2 : (0 : ℚ) ≤ fl (cfg.DISTANCE_SCALE : ℚ) := fl_nonneg (by exact_mod_cast hs)
  have hbound : distance cfg d ≤ fl (100 * fl (cfg.DISTANCE_SCALE : ℚ)) := by
    unfold distance jsDiv
    apply fl_mono
    rw [div_le_iff₀ hpos]
    nlinarith
  refine ⟨?_, hbound, ?_⟩
  · unfold distance jsDiv
    exact fl_nonneg (div_nonneg hs2 (le_of_lt hpos))
  · intro hsmall
    obtain ⟨n, hn⟩ := Int.eq_ofNat_of_zero_le hs
    have hn46 : n < 2 ^ 46 := by
      rw [hn] at hsmall
      exact_mod_cast hsmall
    have h1 : fl (cfg.DISTANCE_SCALE : ℚ) = (cfg.DISTANCE_SCALE : ℚ) := by
      rw [hn]
      have h := fl_natCast n (by omega)
      simpa using h
    have h2 : fl (100 * (cfg.DISTANCE_SCALE : ℚ)) = 100 * (cfg.DISTANCE_SCALE : ℚ) := by
      rw [hn]
      have h := fl_natCast (100 * n) (by omega)
      push_cast at h
      simpa using h
    rw [h1, h2] at hbound
    exact hbound

/-- C9 amended, at the car of the scenarios: the divisor is 0.2 and the distance
500 lies between 0 and 10000. -/
theorem C9_scenario_instance :
    1 / 100 ≤ bbox_height (carDetection (9 / 10)) ∧
    0 < bbox_height (carDetection (9 / 10)) ∧
    bbox_height (carDetection (9 / 10)) ≠ 0 ∧
    fl (1 / 100) ≤ bbox_height (carDetection (9 / 10)) ∧
    (0 ≤ scenarioConfig.DISTANCE_SCALE →
      0 ≤ distance scenarioConfig (carDetection (9 / 10)) ∧
      distance scenarioConfig (carDetection (9 / 10)) ≤
        fl (100 * fl (scenarioConfig.DISTANCE_SCALE : ℚ)) ∧
      (scenarioConfig.DISTANCE_SCALE < 2 ^ 46 →
        distance scenarioConfig (carDetection (9 / 10)) ≤
          100 * (scenarioConfig.DISTANCE_SCALE : ℚ))) :=
  C9_division_is_guarded sampleEnv scenarioConfig (carDetection (9 / 10))
    (by
      rw [drawDetection_of_passes sampleEnv scenarioConfig (carDetection (9 / 10))
        passesFilters_carDetection]
      simp [drawMarker])

/-! ## Polling -/

theorem startPolling_of_active (w : World) (h : w.isPollingActive = true) :
    startPolling w = w := by
  simp [startPolling, h]

theorem stopPolling_of_inactive (env : Env) (w : World) (h : w.isPollingActive = false) :
    stopPolling env w = w := by
  simp [stopPolling, h]

theorem pollingInv_startPolling (w : World) (h : PollingInv w) : PollingInv (startPolling w) := by
  cases hact : w.isPollingActive
  · rcases h with ⟨h1, _⟩ | ⟨_, _, h3⟩
    · rw [hact] at h1; exact absurd h1 Bool.false_ne_true
    · left
      simp [startPolling, hact, setInterval, fetchDetections_request, h3]
  · rw [startPolling_of_active w hact]; exact h

theorem pollingInv_stopPolling (env : Env) (w : World) (h : PollingInv w) :
    PollingInv (stopPolling env w) := by
  cases hact : w.isPollingActive
  · rw [stopPolling_of_inactive env w hact]; exact h
  · rcases h with ⟨_, id, h2, h3⟩ | ⟨h1, _⟩
    · right
      simp [stopPolling, hact, clearInterval, h2, h3]
    · rw [hact] at h1; exact absurd h1.symm Bool.false_ne_true

theorem pollingInv_congr (w w2 : World) (h : PollingInv w)
    (h1 : w2.isPollingActive = w.isPollingActive)
    (h2 : w2.pollingIntervalID = w.pollingIntervalID) (h3 : w2.timers = w.timers) :
    PollingInv w2 := by
  unfold PollingInv
  rw [h1, h2, h3]
  exact h

theorem pollingInv_resume (env : Env) (w : World) (r : FetchResult) (h : PollingInv w) :
    PollingInv (fetchDetections_resume env w r).1 := by
  have hw : PollingInv { w with inFlight := w.inFlight - 1 } :=
    pollingInv_congr w _ h rfl rfl rfl
  have hcatch : ∀ w2 : World, PollingInv w2 → PollingInv (fetchDetections_catch env w2) := by
    intro w2 h2
    exact pollingInv_stopPolling env _ (pollingInv_congr w2 _ h2 rfl rfl rfl)
  unfold fetchDetections_resume
  rcases r with _ | ⟨status, _ | p⟩
  · exact hcatch _ hw
  · exact hcatch _ hw
  · simp only [fetchDetections_try]
    cases hact : w.isPollingActive
    · simpa [hact] using hw
    · simp only [hact, if_true]
      cases hres : (drawMinimap env w.cfg p).2 with
      | none =>
        simp only [hres]
        exact pollingInv_congr w _ h hact.symm rfl rfl
      | some e =>
        simp only [hres]
        exact hcatch _ (pollingInv_congr w _ h hact.symm rfl rfl)

theorem pollingInv_step (env : Env) (w : World) (e : Event) (h : PollingInv w) :
    PollingInv (step env w e) := by
  cases e with
  | click =>
    simp only [step]
    split
    · exact pollingInv_stopPolling env w h
    · exact pollingInv_startPolling w h
  | start => exact pollingInv_startPolling w h
  | stop => exact pollingInv_stopPolling env w h
  | tick id =>
    simp only [step]
    split
    · exact pollingInv_congr w _ h rfl rfl rfl
    · exact h
  | settle r =>
    simp only [step]
    split
    · exact h
    · exact pollingInv_resume env w r h
  | fovInput v => exact pollingInv_congr w _ h rfl rfl rfl
  | distanceInput v => exact pollingInv_congr w _ h rfl rfl rfl
  | confidenceInput v => exact pollingInv_congr w _ h rfl rfl rfl

theorem pollingInv_run (env : Env) (es : List Event) (w : World) (h : PollingInv w) :
    PollingInv (run env w es) := by
  induction es generalizing w with
  | nil => exact h
  | cons e es ih => exact ih (step env w e) (pollingInv_step env w e h)

theorem pollingInv_initialWorld (env : Env) (cfg : ViewConfig) (b s c : String) :
    PollingInv (initialWorld env cfg b s c) :=
  Or.inr ⟨rfl, rfl, rfl⟩

theorem scheduledTimers_of_inv (w : World) (h : PollingInv w) :
    scheduledTimers w = if w.isPollingActive then 1 else 0 := by
  rcases h with ⟨h1, id, _, h3⟩ | ⟨h1, _, h3⟩ <;> simp [scheduledTimers, h1, h3]

/-- C5: from the initial inactive state, after every finite sequence of events
(calls of `startPolling` and `stopPolling`, clicks, timer ticks, settled
fetches, failures included, and slider inputs) the number of timers that are
set is one when `isPollingActive` is true and zero when it is false, hence at
most one; `startPolling` on an active state and `stopPolling` on an inactive
state leave the whole state unchanged. -/
theorem C5_at_most_one_polling_timer (env : Env) (cfg : ViewConfig) (b s c : String)
    (es : List Event) :
    scheduledTimers (run env (initialWorld env cfg b s c) es) =
      (if (run env (initialWorld env cfg b s c) es).isPollingActive then 1 else 0) ∧
    scheduledTimers (run env (initialWorld env cfg b s c) es) ≤ 1 ∧
    ((run env (initialWorld env cfg b s c) es).isPollingActive = true →
      startPolling (run env (initialWorld env cfg b s c) es) =
        run env (initialWorld env cfg b s c) es) ∧
    ((run env (initialWorld env cfg b s c) es).isPollingActive = false →
      stopPolling env (run env (initialWorld env cfg b s c) es) =
        run env (initialWorld env cfg b s c) es) := by
  have hinv := pollingInv_run env es _ (pollingInv_initialWorld env cfg b s c)
  have hcount := scheduledTimers_of_inv _ hinv
  refine ⟨hcount, ?_, startPolling_of_active _, stopPolling_of_inactive env _⟩
  rw [hcount]
  split <;> omega

/-! ## Fetch cycle -/

theorem fetchDetections_resume_of_reject (env : Env) (w : World) (r : FetchResult)
    (hfail : r = .networkError ∨ ∃ status, r = .response status none) :
    fetchDetections_resume env w r =
      (fetchDetections_catch env { w with inFlight := w.inFlight - 1 }, none) := by
  rcases hfail with h | ⟨status, h⟩ <;> subst h <;> rfl

/-- C6 as stated fails for a response with a status that is not 2xx and a JSON
body: on status 500 with the body `[car]` the continuation keeps polling
active, leaves the timer set and the status at ON, and draws the marker of the
detection. -/
theorem C6_status_500_with_json_body_is_drawn :
    activeWorld.isPollingActive = true ∧
    (fetchDetections_resume sampleEnv activeWorld
      (.response 500 (some (.array [carDetection (9 / 10)])))).1.isPollingActive = true ∧
    scheduledTimers (fetchDetections_resume sampleEnv activeWorld
      (.response 500 (some (.array [carDetection (9 / 10)])))).1 = 1 ∧
    (fetchDetections_resume sampleEnv activeWorld
      (.response 500 (some (.array [carDetection (9 / 10)])))).1.statusText = "Status: ON" ∧
    (fetchDetections_resume sampleEnv activeWorld
      (.response 500 (some (.array [carDetection (9 / 10)])))).1.ops =
      activeWorld.ops ++ drawIdle sampleEnv scenarioConfig ++
        drawMarker sampleEnv scenarioConfig (carDetection (9 / 10)) := by
  have hp : passesFilters scenarioConfig (carDetection (9 / 10)) = true :=
    passesFilters_carDetection
  have hd : drawMinimap sampleEnv scenarioConfig (.array [carDetection (9 / 10)]) =
      (drawIdle sampleEnv scenarioConfig ++
        drawMarker sampleEnv scenarioConfig (carDetection (9 / 10)), none) := by
    rw [drawMinimap_array]
    simp [drawDetection_of_passes _ _ _ hp]
  have hcfg : activeWorld.cfg = scenarioConfig := rfl
  have hact : activeWorld.isPollingActive = true := rfl
  refine ⟨hact, ?_, ?_, ?_, ?_⟩ <;>
    simp only [fetchDetections_resume, fetchDetections_try, hact, hcfg, hd, if_true] <;>
    rfl

/-- C6, amended: when the continuation resumes while polling is active and the
cycle failed, that is, the fetch was rejected (network error), or the body is
not JSON, or the body is a JSON value that `drawMinimap` cannot iterate (a
truthy value that is not an array, such as a JSON error object), whatever the
status, then polling stops (`isPollingActive` false, `pollingIntervalID` null,
the timer cleared), the status reads `Status: OFF`, the only operations added
to the context are idle redraws (no detection is drawn), and no exception
leaves the continuation.  The status is never consulted: two responses with
the same body are handled alike, and a response of any status whose body is a
JSON array of detections, or a falsy JSON value, is handled as a success: it
is drawn by `drawMinimap`, polling stays active and the timer and the status
text are untouched. -/
theorem C6_failed_fetch_stops_polling (env : Env) (w : World) (r : FetchResult)
    (hact : w.isPollingActive = true)
    (hfail : r = .networkError ∨ (∃ status, r = .response status none) ∨
      (∃ status, r = .response status (some .nonArray))) :
    (fetchDetections_resume env w r).1.isPollingActive = false ∧
    (fetchDetections_resume env w r).1.pollingIntervalID = none ∧
    (∀ id, w.pollingIntervalID = some id → id ∉ (fetchDetections_resume env w r).1.timers) ∧
    (fetchDetections_resume env w r).1.statusText = "Status: OFF" ∧
    ((fetchDetections_resume env w r).1.ops = w.ops ++ drawIdle env w.cfg ∨
      (fetchDetections_resume env w r).1.ops =
        w.ops ++ drawIdle env w.cfg ++ drawIdle env w.cfg) ∧
    (fetchDetections_resume env w r).2 = none ∧
    (∀ (status status2 : ℕ) (body : Option Payload),
      fetchDetections_resume env w (.response status body) =
        fetchDetections_resume env w (.response status2 body)) ∧
    (∀ (status : ℕ) (p : Payload), p ≠ .nonArray →
      (fetchDetections_resume env w (.response status (some p))).1.isPollingActive = true ∧
      (fetchDetections_resume env w (.response status (some p))).1.pollingIntervalID =
        w.pollingIntervalID ∧
      (fetchDetections_resume env w (.response status (some p))).1.timers = w.timers ∧
      (fetchDetections_resume env w (.response status (some p))).1.statusText =
        w.statusText ∧
      (fetchDetections_resume env w (.response status (some p))).1.ops =
        w.ops ++ (drawMinimap env w.cfg p).1 ∧
      (fetchDetections_resume env w (.response status (some p))).2 = none) := by
  have hstatus : ∀ (status status2 : ℕ) (body : Option Payload),
      fetchDetections_resume env w (.response status body) =
        fetchDetections_resume env w (.response status2 body) := by
    intro status status2 body
    cases body <;> rfl
  have hsuccess : ∀ (status : ℕ) (p : Payload), p ≠ .nonArray →
      fetchDetections_resume env w (.response status (some p)) =
        ({ w with inFlight := w.inFlight - 1, ops := w.ops ++ (drawMinimap env w.cfg p).1 },
          none) := by
    intro status p hp
    cases p with
    | falsy => simp [fetchDetections_resume, fetchDetections_try, hact, drawMinimap]
    | array ds => simp [fetchDetections_resume, fetchDetections_try, hact, drawMinimap_array]
    | nonArray => exact absurd rfl hp
  have hthrow : ∀ status : ℕ, fetchDetections_resume env w (.response status (some .nonArray)) =
      (fetchDetections_catch env
        { w with inFlight := w.inFlight - 1, ops := w.ops ++ drawIdle env w.cfg }, none) := by
    intro status
    simp [fetchDetections_resume, fetchDetections_try, hact, drawMinimap]
  refine ⟨?_, ?_, ?_, ?_, ?_, ?_, hstatus, ?_⟩
  · rcases hfail with h | h | ⟨status, h⟩
    · rw [fetchDetections_resume_of_reject env w r (Or.inl h)]
      cases hid : w.pollingIntervalID <;>
        simp [fetchDetections_catch, stopPolling, hact, clearInterval, hid]
    · rw [fetchDetections_resume_of_reject env w r (Or.inr h)]
      cases hid : w.pollingIntervalID <;>
        simp [fetchDetections_catch, stopPolling, hact, clearInterval, hid]
    · rw [h, hthrow]
      cases hid : w.pollingIntervalID <;>
        simp [fetchDetections_catch, stopPolling, hact, clearInterval, hid]
  · rcases hfail with h | h | ⟨status, h⟩
    · rw [fetchDetections_resume_of_reject env w r (Or.inl h)]
      simp [fetchDetections_catch, stopPolling, hact]
    · rw [fetchDetections_resume_of_reject env w r (Or.inr h)]
      simp [fetchDetections_catch, stopPolling, hact]
    · rw [h, hthrow]
      simp [fetchDetections_catch, stopPolling, hact]
  · intro id hid
    rcases hfail with h | h | ⟨status, h⟩
    · rw [fetchDetections_resume_of_reject env w r (Or.inl h)]
      simp [fetchDetections_catch, stopPolling, hact, clearInterval, hid]
    · rw [fetchDetections_resume_of_reject env w r (Or.inr h)]
      simp [fetchDetections_catch, stopPolling, hact, clearInterval, hid]
    · rw [h, hthrow]
      simp [fetchDetections_catch, stopPolling, hact, clearInterval, hid]
  · rcases hfail with h | h | ⟨status, h⟩
    · rw [fetchDetections_resume_of_reject env w r (Or.inl h)]
      simp [fetchDetections_catch, stopPolling, hact]
    · rw [fetchDetections_resume_of_reject env w r (Or.inr h)]
      simp [fetchDetections_catch, stopPolling, hact]
    · rw [h, hthrow]
      simp [fetchDetections_catch, stopPolling, hact]
  · rcases hfail with h | h | ⟨status, h⟩
    · left
      rw [fetchDetections_resume_of_reject env w r (Or.inl h)]
      cases hid : w.pollingIntervalID <;>
        simp [fetchDetections_catch, stopPolling, hact, clearInterval, hid]
    · left
      rw [fetchDetections_resume_of_reject env w r (Or.inr h)]
      cases hid : w.pollingIntervalID <;>
        simp [fetchDetections_catch, stopPolling, hact, clearInterval, hid]
    · right
      rw [h, hthrow]
      cases hid : w.pollingIntervalID <;>
        simp [fetchDetections_catch, stopPolling, hact, clearInterval, hid]
  · rcases hfail with h | h | ⟨status, h⟩
    · rw [fetchDetections_resume_of_reject env w r (Or.inl h)]
    · rw [fetchDetections_resume_of_reject env w r (Or.inr h)]
    · rw [h, hthrow]
  · intro status p hp
    rw [hsuccess status p hp]
    exact ⟨hact, rfl, rfl, rfl, rfl, rfl⟩

/-- C6 amended, at a status 500 response whose body is a JSON error object (a
truthy value that is not an array), received in the active state of the
scenarios: polling stops and the status reads OFF. -/
theorem C6_status_500_with_error_object_instance :
    (fetchDetections_resume sampleEnv activeWorld
      (.response 500 (some .nonArray))).1.isPollingActive = false ∧
    (fetchDetections_resume sampleEnv activeWorld
      (.response 500 (some .nonArray))).1.statusText = "Status: OFF" ∧
    (fetchDetections_resume sampleEnv activeWorld (.response 500 (some .nonArray))).2 = none :=
  have h := C6_failed_fetch_stops_polling sampleEnv activeWorld
    (.response 500 (some .nonArray)) rfl (Or.inr (Or.inr ⟨500, rfl⟩))
  ⟨h.1, h.2.2.2.1, h.2.2.2.2.2.1⟩

/-- C7: when the continuation resumes while `isPollingActive` is false, then
whatever the request produced (any list of detections, any other body, any
failure) it performs no operation on the context, so the canvas keeps what
`stopPolling` drew; polling stays inactive, no timer is set or cleared, and no
exception leaves the continuation. -/
theorem C7_response_after_stop_is_not_drawn (env : Env) (w : World) (r : FetchResult)
    (hstopped : w.isPollingActive = false) :
    (fetchDetections_resume env w r).1.ops = w.ops ∧
    (fetchDetections_resume env w r).1.isPollingActive = false ∧
    (fetchDetections_resume env w r).1.timers = w.timers ∧
    (fetchDetections_resume env w r).2 = none := by
  rcases r with _ | ⟨status, _ | p⟩ <;>
    simp [fetchDetections_resume, fetchDetections_try, fetchDetections_catch, stopPolling,
      hstopped]

/-- C7 at the scenario: `startPolling` issues a request, `stopPolling` runs, then
the response arrives with the car detection; the operations on the context are
those up to the idle redraw of `stopPolling`. -/
theorem C7_stop_then_response_instance :
    (fetchDetections_resume sampleEnv (stopPolling sampleEnv activeWorld)
      (.response 200 (some (.array [carDetection (9 / 10)])))).1.ops =
      (stopPolling sampleEnv activeWorld).ops ∧
    (fetchDetections_resume sampleEnv (stopPolling sampleEnv activeWorld)
      (.response 200 (some (.array [carDetection (9 / 10)])))).1.isPollingActive = false ∧
    (fetchDetections_resume sampleEnv (stopPolling sampleEnv activeWorld)
      (.response 200 (some (.array [carDetection (9 / 10)])))).1.timers =
      (stopPolling sampleEnv activeWorld).timers ∧
    (fetchDetections_resume sampleEnv (stopPolling sampleEnv activeWorld)
      (.response 200 (some (.array [carDetection (9 / 10)])))).2 = none :=
  C7_response_after_stop_is_not_drawn sampleEnv (stopPolling sampleEnv activeWorld)
    (.response 200 (some (.array [carDetection (9 / 10)]))) rfl

/-! ## Colour lookup -/

theorem color_of_known_label (d : Detection) (h : d.label ∈ KNOWN_LABELS) :
    ∃ c, (d.label, c) ∈ CLASS_COLORS ∧ color d = .str c := by
  simp only [KNOWN_LABELS, CLASS_COLORS, List.map, List.filter] at h
  simp only [color, CLASS_COLORS_get, CLASS_COLORS]
  simp at h
  rcases h with h | h | h | h | h | h | h | h | h | h <;> rw [h] <;> simp [List.lookup] <;> rfl

theorem color_of_plain_unmapped_label (d : Detection) (h1 : CLASS_COLORS.lookup d.label = none)
    (h2 : d.label ∉ OBJECT_PROTOTYPE_KEYS) : color d = .str "#abb2bf" := by
  simp only [color, CLASS_COLORS_get, h1, if_neg h2]
  rfl

/-- C8 at the failing inputs: for the labels `constructor` and `toString`, which
are not among the ten known labels, the property read `CLASS_COLORS[det.label]`
finds the member inherited from `Object.prototype`, which is truthy, so `color`
is that function and not the default `#abb2bf`; it is the value assigned to
`fillStyle` for the marker and for its annotation.  The labels `default` and
the empty string do get `#abb2bf`. -/
theorem C8_inherited_property_name_is_not_coloured_by_default :
    "constructor" ∉ KNOWN_LABELS ∧ "toString" ∉ KNOWN_LABELS ∧
    color (boxDetection "constructor" (3 / 10) (1 / 2)) = .builtin "constructor" ∧
    color (boxDetection "toString" (3 / 10) (1 / 2)) = .builtin "toString" ∧
    color (boxDetection "constructor" (3 / 10) (1 / 2)) ≠ .str "#abb2bf" ∧
    color (boxDetection "default" (3 / 10) (1 / 2)) = .str "#abb2bf" ∧
    color (boxDetection "" (3 / 10) (1 / 2)) = .str "#abb2bf" ∧
    drawDetection sampleEnv scenarioConfig (boxDetection "constructor" (3 / 10) (1 / 2)) =
      [.beginPath, .arc 400 100 6 0 (2 * (884279719003555 / 281474976710656)),
       .setFillStyle (.builtin "constructor"), .fill,
       .setFillStyle (.builtin "constructor"), .setFont "14px sans-serif",
       .setTextAlign "center",
       .fillText (label (boxDetection "constructor" (3 / 10) (1 / 2))) 400 (100 - 10)] := by
  have hc : color (boxDetection "constructor" (3 / 10) (1 / 2)) = .builtin "constructor" := by
    decide
  have hp : passesFilters scenarioConfig (boxDetection "constructor" (3 / 10) (1 / 2)) = true :=
    passesFilters_boxDetection _
  refine ⟨by decide, by decide, hc, by decide, ?_, by decide, by decide, ?_⟩
  · rw [hc]; decide
  · have hcentre : bbox_center_x (boxDetection "constructor" (3 / 10) (1 / 2)) = 1 / 2 :=
      bbox_center_x_of_two_fifths _ rfl rfl
    have hdist : distance scenarioConfig (boxDetection "constructor" (3 / 10) (1 / 2)) = 500 :=
      distance_of_fifth _ _ rfl (bbox_height_of_three_tenths _ rfl rfl)
    have hx := mapX_scenario _ hcentre
    have hy := mapY_scenario _ hcentre hdist
    have hpi : jsMul 2 sampleEnv.math.PI = 2 * (884279719003555 / 281474976710656) := by
      have h := fl_representable 884279719003555 (-47) (by norm_num) (by norm_num)
      norm_num at h
      simp only [jsMul, sampleEnv, sampleMath]
      norm_num
      exact h
    have h90 : jsSub 100 10 = 100 - 10 := by
      have h := fl_natCast 90 (by norm_num)
      simp only [jsSub]
      norm_num
      simpa using h
    rw [drawDetection_of_passes _ _ _ hp, drawMarker, hc, hx, hy, hpi, h90]

end DetectionRadar
